import Mathlib

/-
Verification of the HVAC topology-synthesis engine (eppy/hvacbuilder.py).

The document is shallowly embedded: an IDF is a list of objects in the
iteration order of `idf.model.dtls` / `idf.idfobjects`; an object is its
uppercase type key plus an ordered field list; a field carries its name, its
schema type (the `type` entry of its IDD, when present) and its value.  A
value is either a plain string or a staged rename pair `[old, new]` (a
two-element Python list).  The source only ever builds flat two-element
pairs between rename propagations; re-staging an already-staged field would
build a nested list, which `renamenodes` later crashes on (`dict` over an
unhashable key), so staging a pair value is modelled as a failure.

Components are addressed by their index in the document, mirroring the
Python object references held by the caller.  Functions that can raise are
modelled in `Except`, the error carrying the document state at raise time
(Python mutations before the raise persist).
-/

namespace Hvac

inductive Val where
  | str (s : String)
  | pair (old nxt : String)
deriving DecidableEq, Repr

def Val.resolved : Val → String
  | .str s => s
  | .pair _ n => n

def Val.isPair : Val → Bool
  | .str _ => false
  | .pair _ _ => true

structure Fld where
  name : String
  ftype : Option String
  val : Val
deriving DecidableEq, Repr

structure Obj where
  key : String
  flds : List Fld
deriving DecidableEq, Repr

/-- Modelled from the spec: the record-store adapter's field read
(`getField` / `EPBunch.__getitem__`), which is not under src/.  Fields are
looked up by name; `none` corresponds to `BadEPFieldError`. -/
def Obj.getVal (o : Obj) (fn : String) : Option Val :=
  (o.flds.find? (fun f => f.name == fn)).map (fun f => f.val)

/-- Modelled from the spec: the record-store adapter's field write
(`setField`); it replaces the value of the named field in place. -/
def Obj.setVal (o : Obj) (fn : String) (v : Val) : Obj :=
  { o with flds := o.flds.map (fun f => if f.name == fn then { f with val := v } else f) }

/-- The object's `Name` field value (`idfobject.Name`). -/
def Obj.name (o : Obj) : String :=
  match o.getVal "Name" with
  | some (.str s) => s
  | _ => ""

abbrev Idf := List Obj

def getObj? (idf : Idf) (i : Nat) : Option Obj := idf.get? i

def setObjVal (idf : Idf) (i : Nat) (fn : String) (v : Val) : Idf :=
  match idf.get? i with
  | some o => idf.set i (o.setVal fn v)
  | none => idf

/-- Value of field `fn` of object `oi`. -/
def fieldAt (idf : Idf) (oi : Nat) (fn : String) : Option Val :=
  match getObj? idf oi with
  | some o => o.getVal fn
  | none => none

/-- Modelled from the spec: the adapter's `getObject` (`idf.getobject`),
lookup by type key and name; first match in document order. -/
def getobjectIdx (idf : Idf) (key name : String) : Option Nat :=
  idf.findIdx? (fun o => o.key == key && o.name == name)

inductive HvacErr where
  | whichLoop (key name : String) (candidates : List String)
  | nameErr
  | fail
deriving DecidableEq, Repr

abbrev RunRes := Except (HvacErr × Idf) Idf

deriving instance DecidableEq for Except

/-- Python `s.endswith(t)`, on the character sequence. -/
def strEndsWith (s t : String) : Bool := t.data.isSuffixOf s.data

/-- Python `s.startswith(t)`, on the character sequence. -/
def strStartsWith (s t : String) : Bool := t.data.isPrefixOf s.data

/-- Python `s.strip() == ''`: every character is whitespace. -/
def isBlankStr (s : String) : Bool := s.data.all Char.isWhitespace

/-- Characters before the first occurrence of `pat`. -/
def splitHeadChars (pat : List Char) : List Char → List Char
  | [] => []
  | c :: t => if pat.isPrefixOf (c :: t) then [] else c :: splitHeadChars pat t

/-- Python `s.split(pat)[0]` for a non-empty `pat`: the part of `s` before
the first occurrence of `pat` (all of `s` when `pat` does not occur). -/
def splitHead (s pat : String) : String := ⟨splitHeadChars pat.data s.data⟩

def containsChars (pat : List Char) : List Char → Bool
  | [] => pat.isPrefixOf []
  | c :: t => pat.isPrefixOf (c :: t) || containsChars pat t

/-- Python `s.find(pat) != -1`: substring containment (the empty pattern is
found at position 0). -/
def strContains (s pat : String) : Bool := containsChars pat.data s.data

/-- Python `s.upper()` for the ASCII strings of this code base. -/
def strToUpper (s : String) : String := ⟨s.data.map Char.toUpper⟩

/-- Python `s.replace(' ', '_')` — the single-character replace used to
turn the loop field table into attribute names. -/
def underscore (s : String) : String :=
  ⟨s.data.map (fun c => if c = ' ' then '_' else c)⟩

/-- `getfieldnamesendswith` (hvacbuilder.py line 518). -/
def getfieldnamesendswith (o : Obj) (ends : String) : List String :=
  (o.flds.map (fun f => f.name)).filter (fun n => strEndsWith n ends)

/-- `getnodefieldname` (line 528).  `startw` is the already-defaulted
`startswith` argument (Python turns `None` into `''`); the result is `none`
exactly when the candidate list is empty and `nodenames[0]` would raise. -/
def getnodefieldname (o : Obj) (ends fluid startw : String) : Option String :=
  let nodenames := (getfieldnamesendswith o ends).filter (fun n => strStartsWith n startw)
  let fnodenames := nodenames.filter (fun n => strContains n fluid)
  let fnodenames := fnodenames.filter (fun n => strStartsWith n startw)
  if fnodenames.isEmpty then nodenames.head? else fnodenames.head?

/-- `blankfield` inside `initinletoutlet` (line 585): a list value raises
`AttributeError` on `.strip()`, which the source catches and treats as
non-blank. -/
def blankfield : Val → Bool
  | .str s => isBlankStr s
  | .pair _ _ => false

/-- The candidate tag printed by `trimfields`:
`field.split("Inlet_Node_Name")[0]`. -/
def candTag (f : String) : String :=
  splitHead f "Inlet_Node_Name"

/-- `trimfields` inside `initinletoutlet` (line 595).  `inletfields` is the
closure variable the error report reads (the source prints it even when
trimming the outlet fields); `o` supplies `idfobject.key` / `.Name`. -/
def trimfields (idf : Idf) (o : Obj) (fields inletfields : List String)
    (thisnode : Option String) : Except (HvacErr × Idf) (List String) :=
  if fields.length > 1 then
    match thisnode with
    | some tn => .ok (fields.filter (fun f => strStartsWith f tn))
    | none => .error (.whichLoop o.key o.name (inletfields.map candTag), idf)
  else .ok fields

/-- The body of the two `for` loops in `initinletoutlet`: initialise every
listed field of object `oi` to `"{Name}_{field}"` when it is blank (or
unconditionally under `force`). -/
def initOneField (idf : Idf) (oi : Nat) (fn : String) (force : Bool) : Idf :=
  match getObj? idf oi with
  | some o =>
    match o.getVal fn with
    | some v =>
      if blankfield v || force then setObjVal idf oi fn (.str (o.name ++ "_" ++ fn))
      else idf
    | none => idf
  | none => idf

def initFields (idf : Idf) (oi : Nat) (fields : List String) (force : Bool) : Idf :=
  match fields with
  | [] => idf
  | fn :: rest => initFields (initOneField idf oi fn force) oi rest force

/-- `initinletoutlet` (line 582).  The outlet `trimfields` call reports the
(already trimmed) inlet field list, as the source does. -/
def initinletoutlet (idf : Idf) (oi : Nat) (thisnode : Option String) (force : Bool) : RunRes :=
  match getObj? idf oi with
  | none => .error (.fail, idf)
  | some o =>
    let inletfields := getfieldnamesendswith o "Inlet_Node_Name"
    match trimfields idf o inletfields inletfields thisnode with
    | .error e => .error e
    | .ok infs =>
      let idf1 := initFields idf oi infs force
      match getObj? idf1 oi with
      | none => .error (.fail, idf1)
      | some o1 =>
        let outletfields := getfieldnamesendswith o1 "Outlet_Node_Name"
        match trimfields idf1 o1 outletfields infs thisnode with
        | .error e => .error e
        | .ok outfs => .ok (initFields idf1 oi outfs force)

/-- Stage a rename on field `fn` of object `oi`:
`obj[fn] = [obj[fn], newName]`.  The current value must be a plain string;
staging an already-staged field builds a nested list on which the later
`dict(renameds)` crashes, modelled as failure. -/
def stageField (idf : Idf) (oi : Nat) (fn : String) (newName : String) : RunRes :=
  match getObj? idf oi with
  | none => .error (.fail, idf)
  | some o =>
    match o.getVal fn with
    | some (.str s) => .ok (setObjVal idf oi fn (.pair s newName))
    | _ => .error (.fail, idf)

/-- The `for i in range(len(components) - 1)` loop of `connectcomponents`
(line 568), running over the adjacent pairs of the component list. -/
def connectAdj (idf : Idf) (pairs : List ((Nat × Option String) × (Nat × Option String)))
    (fluid : String) : RunRes :=
  match pairs with
  | [] => .ok idf
  | ((ai, an), (bi, bn)) :: rest =>
    match initinletoutlet idf ai an false with
    | .error e => .error e
    | .ok idf1 =>
      match initinletoutlet idf1 bi bn false with
      | .error e => .error e
      | .ok idf2 =>
        match getObj? idf2 ai, getObj? idf2 bi with
        | some ao, some bo =>
          let between := ao.name ++ "_" ++ bo.name ++ "_node"
          match getnodefieldname ao "Outlet_Node_Name" fluid (an.getD "") with
          | none => .error (.fail, idf2)
          | some oname =>
            match stageField idf2 ai oname between with
            | .error e => .error e
            | .ok idf3 =>
              match getnodefieldname bo "Inlet_Node_Name" fluid "" with
              | none => .error (.fail, idf3)
              | some iname =>
                match stageField idf3 bi iname between with
                | .error e => .error e
                | .ok idf4 => connectAdj idf4 rest fluid
        | _, _ => .error (.fail, idf2)

/-- `connectcomponents` (line 549).  A singleton list stages the lone
component's outlet onto itself; longer lists connect each adjacent pair
through a `"{A.Name}_{B.Name}_node"` identifier. -/
def connectcomponents (idf : Idf) (comps : List (Nat × Option String)) (fluid : String) : RunRes :=
  match comps with
  | [(ci, cn)] =>
    match initinletoutlet idf ci cn false with
    | .error e => .error e
    | .ok idf1 =>
      match getObj? idf1 ci with
      | none => .error (.fail, idf1)
      | some o =>
        match getnodefieldname o "Outlet_Node_Name" fluid (cn.getD "") with
        | none => .error (.fail, idf1)
        | some oname =>
          match o.getVal oname with
          | some (.str s) => .ok (setObjVal idf1 ci oname (.pair s s))
          | _ => .error (.fail, idf1)
  | _ => connectAdj idf (comps.zip comps.tail) fluid

/-- Name of the `k`-th extensible BRANCH field with the given tail, e.g.
`Component_3_Inlet_Node_Name`. -/
def compFieldName (k : Nat) (tl : String) : String :=
  "Component_" ++ toString k ++ "_" ++ tl

/-- Modelled from the spec: `clearExtensibleGroup`
(`idf.removeextensibles('BRANCH', name)`, in modeleditor, not under src/)
truncates the branch's extensible entries; for BRANCH objects those are
the `Component_*` field groups and everything before them stays. -/
def clearExtensibles (o : Obj) : Obj :=
  { o with flds := o.flds.filter (fun f => !(strStartsWith f.name "Component_")) }

/-- The append loop of `componentsintobranch` (line 642): per component, in
order, its key, its name, its resolved inlet value, its resolved outlet
value and a blank branch-control-type.  `k` is the 1-based slot index. -/
def branchSlotFields (idf : Idf) (comps : List (Nat × Option String)) (fluid : String)
    (k : Nat) : Except (HvacErr × Idf) (List Fld) :=
  match comps with
  | [] => .ok []
  | (ci, cn) :: rest =>
    match getObj? idf ci with
    | none => .error (.fail, idf)
    | some c =>
      match getnodefieldname c "Inlet_Node_Name" fluid (cn.getD "") with
      | none => .error (.fail, idf)
      | some infn =>
        match getnodefieldname c "Outlet_Node_Name" fluid (cn.getD "") with
        | none => .error (.fail, idf)
        | some outfn =>
          match c.getVal infn with
          | none => .error (.fail, idf)
          | some iv =>
            match c.getVal outfn with
            | none => .error (.fail, idf)
            | some ov =>
              match branchSlotFields idf rest fluid (k + 1) with
              | .error e => .error e
              | .ok slots =>
                .ok ([⟨compFieldName k "Object_Type", none, .str c.key⟩,
                      ⟨compFieldName k "Name", none, .str c.name⟩,
                      ⟨compFieldName k "Inlet_Node_Name", some "node", iv⟩,
                      ⟨compFieldName k "Outlet_Node_Name", some "node", ov⟩,
                      ⟨compFieldName k "Branch_Control_Type", none, .str ""⟩] ++ slots)

/-- `componentsintobranch` (line 624): empty the branch's extensible block,
then append five slots per component. -/
def componentsintobranch (idf : Idf) (bi : Nat) (comps : List (Nat × Option String))
    (fluid : String) : RunRes :=
  match getObj? idf bi with
  | none => .error (.fail, idf)
  | some b =>
    let idf1 := idf.set bi (clearExtensibles b)
    match branchSlotFields idf1 comps fluid 1 with
    | .error e => .error e
    | .ok slots =>
      match getObj? idf1 bi with
      | none => .error (.fail, idf1)
      | some b1 => .ok (idf1.set bi { b1 with flds := b1.flds ++ slots })

/-- First pass of `renamenodes` (line 492): collect every staged pair value
anywhere in the document, in document order, skipping exact duplicates. -/
def collectRenameds (idf : Idf) : List (String × String) :=
  idf.foldl
    (fun acc o =>
      o.flds.foldl
        (fun acc2 f =>
          match f.val with
          | .pair a b => if (a, b) ∈ acc2 then acc2 else acc2 ++ [(a, b)]
          | .str _ => acc2)
        acc)
    []

/-- Lookup in `dict(renameds)`: the last pair for a given old value wins. -/
def lookupLast (tbl : List (String × String)) (k : String) : Option String :=
  (tbl.reverse.find? (fun p => p.1 == k)).map (fun p => p.2)

/-- Second pass of `renamenodes` on one field value: only fields whose IDD
type equals `fieldtype` are touched; a staged pair collapses to its new
value, a plain value is pushed through the rename table. -/
def renameVal (tbl : List (String × String)) (ft : Option String) (fieldtype : String)
    (v : Val) : Val :=
  match ft with
  | some t =>
    if t = fieldtype then
      match v with
      | .pair _ b => .str b
      | .str s =>
        match lookupLast tbl s with
        | some n => .str n
        | none => .str s
    else v
  | none => v

/-- Second pass of `renamenodes` on one field. -/
def renameFld (tbl : List (String × String)) (fieldtype : String) (f : Fld) : Fld :=
  { f with val := renameVal tbl f.ftype fieldtype f.val }

/-- Second pass of `renamenodes` on one object. -/
def renameObj (tbl : List (String × String)) (fieldtype : String) (o : Obj) : Obj :=
  { o with flds := o.flds.map (renameFld tbl fieldtype) }

/-- `renamenodes` (line 490). -/
def renamenodes (idf : Idf) (fieldtype : String) : Idf :=
  idf.map (renameObj (collectRenameds idf) fieldtype)

/-- The probe loop of `getbranchcomponents` (line 473): read
`Component_i_Object_Type` / `Component_i_Name` until the type is blank or
the field family ends (`BadEPFieldError`, a normal break).  A staged pair in
a probed field would crash `.strip()`, modelled as `none`. -/
def branchCompRefs (b : Obj) : Nat → Nat → Option (List (String × String))
  | 0, _ => some []
  | fuel + 1, i =>
    match b.getVal (compFieldName i "Object_Type") with
    | none => some []
    | some (.pair _ _) => none
    | some (.str t) =>
      if isBlankStr t then some []
      else
        match b.getVal (compFieldName i "Name") with
        | some (.str n) => (branchCompRefs b fuel (i + 1)).map (fun rest => (t, n) :: rest)
        | _ => none

/-- `getbranchcomponents` (line 468): resolve the recorded (type, name)
pairs back to live objects.  A failed `getobject` puts `None` in the Python
list and crashes at first use; modelled as `none` here. -/
def getbranchcomponents (idf : Idf) (bi : Nat) : Option (List Nat) :=
  match getObj? idf bi with
  | none => none
  | some b =>
    match branchCompRefs b 99999 1 with
    | none => none
    | some refs => refs.mapM (fun r => getobjectIdx idf r.1 r.2)

/-- The boundary rebinding inside the connector scan (lines 1016-1034): on
a splitter match stage the first component's inlet onto the loop's
side-inlet field, on a mixer match stage the last component's outlet onto
the loop's side-outlet field.  `inFl?` / `outFl?` are `flnames[...]`
looked up lazily (`none` models the `IndexError` of a too-short field
table). -/
def rebindEnd (idf : Idf) (bi loopIdx : Nat) (inFl? outFl? : Option String)
    (fluid : String) (isfirst : Bool) : RunRes :=
  match getbranchcomponents idf bi with
  | none => .error (.fail, idf)
  | some comps =>
    let target? := if isfirst then comps.head? else comps.getLast?
    match target? with
    | none => .error (.fail, idf)
    | some c0 =>
      match getObj? idf c0 with
      | none => .error (.fail, idf)
      | some co =>
        let ends := if isfirst then "Inlet_Node_Name" else "Outlet_Node_Name"
        match getnodefieldname co ends fluid "" with
        | none => .error (.fail, idf)
        | some nodefn =>
          match (if isfirst then inFl? else outFl?) with
          | none => .error (.fail, idf)
          | some lfl =>
            match fieldAt idf loopIdx lfl with
            | some (.str lv) => stageField idf c0 nodefn lv
            | _ => .error (.fail, idf)

/-- The two `if connector.key == ...` checks of the connector scan: a
splitter records its first branch, a mixer its last branch, anything else
leaves the previously recorded locals untouched; a missing branch-name
field crashes (`BadEPFieldError`). -/
def detectConnector (idf : Idf) (con : Obj) (st : Option (Val × Bool)) :
    Except (HvacErr × Idf) (Option (Val × Bool)) :=
  if con.key = "CONNECTOR:SPLITTER" then
    match con.getVal "Inlet_Branch_Name" with
    | none => .error (.fail, idf)
    | some v => .ok (some (v, true))
  else if con.key = "CONNECTOR:MIXER" then
    match con.getVal "Outlet_Branch_Name" with
    | none => .error (.fail, idf)
    | some v => .ok (some (v, false))
  else .ok st

/-- One connector-list scan of `replacebranch` (lines 996-1034 and
1039-1078): probe `Connector_i_Object_Type` slots, track the last seen
splitter's first-branch / mixer's last-branch (`cbranchname`, `isfirst` —
Python locals that persist across iterations and a preceding scan, hence
the threaded `st`), and rebind when it names the target branch.  Reaching
the comparison with no connector ever seen raises `NameError`.  Fuel is
the `range(1, 100000)` bound; exhausting it ends the loop normally. -/
def scanSide (clIdx branchIdx loopIdx : Nat) (inFl? outFl? : Option String) (fluid : String) :
    Nat → Nat → Option (Val × Bool) → Idf → Except (HvacErr × Idf) (Idf × Option (Val × Bool))
  | 0, _, st, idf => .ok (idf, st)
  | fuel + 1, i, st, idf =>
    match getObj? idf clIdx with
    | none => .error (.fail, idf)
    | some cl =>
      match cl.getVal ("Connector_" ++ toString i ++ "_Object_Type") with
      | none => .ok (idf, st)
      | some (.pair _ _) => .error (.fail, idf)
      | some (.str ct) =>
        if isBlankStr ct then .ok (idf, st)
        else
          match cl.getVal ("Connector_" ++ toString i ++ "_Name") with
          | some (.str cn) =>
            match getobjectIdx idf (strToUpper ct) cn with
            | none => .error (.fail, idf)
            | some conIdx =>
              match getObj? idf conIdx with
              | none => .error (.fail, idf)
              | some con =>
                match detectConnector idf con st with
                | .error e => .error e
                | .ok none => .error (.nameErr, idf)
                | .ok (some (v, isf)) =>
                  match getObj? idf branchIdx with
                  | none => .error (.fail, idf)
                  | some b =>
                    if v = Val.str b.name then
                      match rebindEnd idf branchIdx loopIdx inFl? outFl? fluid isf with
                      | .error e => .error e
                      | .ok idf2 =>
                        scanSide clIdx branchIdx loopIdx inFl? outFl? fluid fuel (i + 1)
                          (some (v, isf)) idf2
                    else
                      scanSide clIdx branchIdx loopIdx inFl? outFl? fluid fuel (i + 1)
                        (some (v, isf)) idf
          | _ => .error (.fail, idf)

/-- The fluid dispatch of `replacebranch` (line 989): WATER reads the
supply connector-list name from `flnames[3]`, AIR from `flnames[1]`, and
any other fluid leaves `supplyconlistname` unassigned — the `NameError`. -/
def sclName (idf3 : Idf) (loopIdx : Nat) (flnames : List String) (fluid : String) :
    Except (HvacErr × Idf) String :=
  if strToUpper fluid = "WATER" then
    match flnames.get? 3 with
    | none => .error (.fail, idf3)
    | some fl =>
      match fieldAt idf3 loopIdx fl with
      | some (.str s) => .ok s
      | _ => .error (.fail, idf3)
  else if strToUpper fluid = "AIR" then
    match flnames.get? 1 with
    | none => .error (.fail, idf3)
    | some fl =>
      match fieldAt idf3 loopIdx fl with
      | some (.str s) => .ok s
      | _ => .error (.fail, idf3)
  else .error (.nameErr, idf3)

/-- The demand-side block of `replacebranch` (lines 1036-1078), run only
for WATER: look up the demand connector list by `flnames[7]`, scan it
(locals carried over from the supply scan), then the final
`renamenodes`. -/
def demandPhase (idf4 : Idf) (loopIdx branchIdx : Nat) (flnames : List String)
    (fluid : String) (st4 : Option (Val × Bool)) : RunRes :=
  match flnames.get? 7 with
  | none => .error (.fail, idf4)
  | some fl7 =>
    match fieldAt idf4 loopIdx fl7 with
    | some (.str dcl) =>
      match getobjectIdx idf4 "CONNECTORLIST" dcl with
      | none => .error (.fail, idf4)
      | some dclIdx =>
        match scanSide dclIdx branchIdx loopIdx (flnames.get? 4) (flnames.get? 5)
            fluid 99999 1 st4 idf4 with
        | .error e => .error e
        | .ok (idf5, _) => .ok (renamenodes idf5 "node")
    | _ => .error (.fail, idf4)

/-- The module-level `replacebranch` (line 957).  `loopIdx` is the loop
object (`loop.loop`), `loopfields` the loop class's `loopfields` table.
An unsupported fluid leaves `supplyconlistname` unassigned and raises
`NameError` after the branch was already chained, rewritten and renamed. -/
def replacebranch (idf : Idf) (loopIdx : Nat) (loopfields : List String) (branchIdx : Nat)
    (comps : List (Nat × Option String)) (fluid : String) : RunRes :=
  match connectcomponents idf comps fluid with
  | .error e => .error e
  | .ok idf1 =>
    match componentsintobranch idf1 branchIdx comps fluid with
    | .error e => .error e
    | .ok idf2 =>
      let idf3 := renamenodes idf2 "node"
      let flnames := loopfields.map underscore
      match sclName idf3 loopIdx flnames fluid with
      | .error e => .error e
      | .ok scl =>
        match getobjectIdx idf3 "CONNECTORLIST" scl with
        | none => .error (.fail, idf3)
        | some clIdx =>
          match scanSide clIdx branchIdx loopIdx (flnames.get? 0) (flnames.get? 1) fluid
              99999 1 none idf3 with
          | .error e => .error e
          | .ok (idf4, st4) =>
            if strToUpper fluid = "WATER" then
              demandPhase idf4 loopIdx branchIdx flnames fluid st4
            else .ok (renamenodes idf4 "node")

/-- `PlantLoop.loopfields` (line 324). -/
def plantloopfields : List String :=
  ["Plant Side Inlet Node Name",
   "Plant Side Outlet Node Name",
   "Plant Side Branch List Name",
   "Plant Side Connector List Name",
   "Demand Side Inlet Node Name",
   "Demand Side Outlet Node Name",
   "Demand Side Branch List Name",
   "Demand Side Connector List Name"]

/-- `CondenserLoop.loopfields` (line 364). -/
def condenserloopfields : List String :=
  ["Condenser Side Inlet Node Name",
   "Condenser Side Outlet Node Name",
   "Condenser Side Branch List Name",
   "Condenser Side Connector List Name",
   "Demand Side Inlet Node Name",
   "Demand Side Outlet Node Name",
   "Condenser Demand Side Branch List Name",
   "Condenser Demand Side Connector List Name"]

/-- `AirLoopHVAC.loopfields` (line 286). -/
def airloopfields : List String :=
  ["Branch List Name",
   "Connector List Name",
   "Supply Side Inlet Node Name",
   "Demand Side Outlet Node Name",
   "Demand Side Inlet Node Names",
   "Supply Side Outlet Node Names"]

/-- A side topology argument `[inlet, [branch names...], outlet]` of the
loop builders (`sloop` / `dloop`). -/
structure SideSpec where
  inlet : String
  mid : List String
  outlet : String
deriving DecidableEq, Repr

/-- `flattencopy` (line 1087) applied to a side topology. -/
def sideNames (s : SideSpec) : List String :=
  s.inlet :: (s.mid ++ [s.outlet])

/-- Type keys created by one `pipebranch` call (line 418): the pipe
component, then the branch. -/
def pipebranchKeys : List String := ["PIPE:ADIABATIC", "BRANCH"]

/-- Type keys of the objects a `PlantLoop` / `CondenserLoop` build creates,
in creation order, following `Loop.makeloop` (line 113): the loop object,
`set_branchlists` (two BRANCHLIST), `make_supply_branches` (a pipe branch
per flattened supply name), `make_demand_branches` (names only),
`rename_endpoints` (a pipe branch per flattened demand name), the supply
and demand connector lists, and `make_splitters_and_mixers`. -/
def waterLoopCreatedKeys (looptype : String) (sloop dloop : SideSpec) : List String :=
  [looptype]
    ++ ["BRANCHLIST", "BRANCHLIST"]
    ++ (sideNames sloop).flatMap (fun _ => pipebranchKeys)
    ++ (sideNames dloop).flatMap (fun _ => pipebranchKeys)
    ++ ["CONNECTORLIST"]
    ++ ["CONNECTORLIST"]
    ++ ["CONNECTOR:SPLITTER", "CONNECTOR:MIXER", "CONNECTOR:SPLITTER", "CONNECTOR:MIXER"]

/-- Type keys of the objects an `AirLoopHVAC` build creates, in creation
order: the loop object, one BRANCHLIST (`AirLoopHVAC.set_branchlists`),
the supply pipe branches, `make_air_demand_loop` (per zone an
equipment-connection, then per zone an equipment list, then per zone an
air terminal), one CONNECTORLIST (`make_supply_connectorlists`), and
`make_air_splitters_mixers_and_paths`. -/
def airLoopCreatedKeys (sloop dloop : SideSpec) : List String :=
  ["AIRLOOPHVAC"]
    ++ ["BRANCHLIST"]
    ++ (sideNames sloop).flatMap (fun _ => pipebranchKeys)
    ++ dloop.mid.flatMap (fun _ => ["ZONEHVAC:EQUIPMENTCONNECTIONS"])
    ++ dloop.mid.flatMap (fun _ => ["ZONEHVAC:EQUIPMENTLIST"])
    ++ dloop.mid.flatMap (fun _ => ["AIRTERMINAL:SINGLEDUCT:UNCONTROLLED"])
    ++ ["CONNECTORLIST"]
    ++ ["AIRLOOPHVAC:ZONESPLITTER", "AIRLOOPHVAC:ZONEMIXER",
        "AIRLOOPHVAC:SUPPLYPATH", "AIRLOOPHVAC:RETURNPATH"]

/-- Per-zone entries written into the AirLoopHVAC:ZoneSplitter by
`make_air_splitters_mixers_and_paths` (line 742): field
`Outlet_{i+1}_Node_Name` gets the zone's equipment-connection inlet node,
which `make_air_demand_loop` (line 700) set to `"{zone} Inlet Node"`. -/
def zoneSplitterEntries (i : Nat) (zones : List String) : List (String × String) :=
  match zones with
  | [] => []
  | z :: rest =>
    ("Outlet_" ++ toString (i + 1) ++ "_Node_Name", z ++ " Inlet Node")
      :: zoneSplitterEntries (i + 1) rest

/-- Per-zone entries written into the AirLoopHVAC:ZoneMixer (line 754):
field `Inlet_{i+1}_Node_Name` gets the zone's return-air node, set by
`make_air_demand_loop` (line 704) to `"{zone} Outlet Node"`. -/
def zoneMixerEntries (i : Nat) (zones : List String) : List (String × String) :=
  match zones with
  | [] => []
  | z :: rest =>
    ("Inlet_" ++ toString (i + 1) ++ "_Node_Name", z ++ " Outlet Node")
      :: zoneMixerEntries (i + 1) rest

/-- The document of a successful run, for building concrete witnesses. -/
def resOk : RunRes → Idf
  | .ok l => l
  | .error _ => []

/-- The slot list of a successful `branchSlotFields` run. -/
def slotsOk : Except (HvacErr × Idf) (List Fld) → List Fld
  | .ok l => l
  | .error _ => []

/-- Two fresh adiabatic pipes, as `pipecomponent` would leave them before
their node fields are filled in. -/
def pipeObj (nm inv outv : String) : Obj :=
  ⟨"PIPE:ADIABATIC",
   [⟨"Name", some "alpha", .str nm⟩,
    ⟨"Inlet_Node_Name", some "node", .str inv⟩,
    ⟨"Outlet_Node_Name", some "node", .str outv⟩]⟩

def chainIdf : Idf := [pipeObj "p1" "p1_in" "", pipeObj "p2" "" "p2_out"]

def chainComps : List (Nat × Option String) := [(0, none), (1, none)]

def chainOut : Idf := resOk (connectcomponents chainIdf chainComps "")

/-- A small document exercising `renamenodes`: a staged pair in a node
field, a staged pair in a non-node field, plain node values matching and
missing the staged old identifiers, and plain non-node values. -/
def renameDemoIdf : Idf :=
  [⟨"PIPE:ADIABATIC",
    [⟨"Name", some "alpha", .str "pp"⟩,
     ⟨"Inlet_Node_Name", some "node", .pair "old_in" "new_in"⟩,
     ⟨"Outlet_Node_Name", some "node", .str "old_in"⟩]⟩,
   ⟨"BRANCH",
    [⟨"Name", some "alpha", .str "old_in"⟩,
     ⟨"Component_1_Inlet_Node_Name", some "node", .str "elsewhere"⟩,
     ⟨"Component_1_Name", none, .pair "stray_old" "stray_new"⟩,
     ⟨"Component_1_Outlet_Node_Name", some "node", .str "stray_old"⟩]⟩]

/-- A branch plus one component for the `componentsintobranch` witness. -/
def branchDemoBranch : Obj :=
  ⟨"BRANCH",
   [⟨"Name", some "alpha", .str "b1"⟩,
    ⟨"Component_1_Object_Type", none, .str "Pipe:Adiabatic"⟩,
    ⟨"Component_1_Name", none, .str "oldpipe"⟩,
    ⟨"Component_1_Inlet_Node_Name", some "node", .str "x_in"⟩,
    ⟨"Component_1_Outlet_Node_Name", some "node", .str "x_out"⟩,
    ⟨"Component_1_Branch_Control_Type", none, .str "Bypass"⟩]⟩

def branchDemoIdf : Idf := [branchDemoBranch, pipeObj "c1" "c1_in" "c1_out"]

def branchDemoSlots : List Fld :=
  slotsOk (branchSlotFields (branchDemoIdf.set 0 (clearExtensibles branchDemoBranch))
    [(1, none)] "" 1)

/-- Component with one inlet-node field and two same-suffix outlet-node
fields: the ambiguity `trimfields` must reject when no port hint is given. -/
def fancoilObj : Obj :=
  ⟨"ZONEHVAC:FOURPIPEFANCOIL",
   [⟨"Name", some "alpha", .str "FC1"⟩,
    ⟨"FC_Inlet_Node_Name", some "node", .str "fcin"⟩,
    ⟨"Air_Outlet_Node_Name", some "node", .str ""⟩,
    ⟨"Water_Outlet_Node_Name", some "node", .str ""⟩]⟩

def fancoilIdf : Idf := [fancoilObj]

/-- Component with an air and a water inlet-node field, for exercising the
fluid filter of `getnodefieldname`. -/
def coilObj : Obj :=
  ⟨"COIL:HEATING:WATER",
   [⟨"Name", some "alpha", .str "CO1"⟩,
    ⟨"Air_Inlet_Node_Name", some "node", .str ""⟩,
    ⟨"Water_Inlet_Node_Name", some "node", .str ""⟩]⟩

/-- A complete plant-loop document for exercising `replacebranch`: loop
object 0, branch 1 (named `bMain`), components 2 and 3, supply connector
list 4 with splitter 5 / mixer 6, demand connector list 7 with splitter 8 /
mixer 9.  `bMain` is the name recorded by the side splitter / mixer with
which boundary behaviour is controlled per instantiation. -/
def loopObjFlds (psin psout : String) : List Fld :=
  [⟨"Name", some "alpha", .str "LP"⟩,
   ⟨"Plant_Side_Inlet_Node_Name", some "node", .str psin⟩,
   ⟨"Plant_Side_Outlet_Node_Name", some "node", .str psout⟩,
   ⟨"Plant_Side_Branch_List_Name", none, .str "SBL"⟩,
   ⟨"Plant_Side_Connector_List_Name", none, .str "SCL"⟩,
   ⟨"Demand_Side_Inlet_Node_Name", some "node", .str "DIN"⟩,
   ⟨"Demand_Side_Outlet_Node_Name", some "node", .str "DOUT"⟩,
   ⟨"Demand_Side_Branch_List_Name", none, .str "DBL"⟩,
   ⟨"Demand_Side_Connector_List_Name", none, .str "DCL"⟩]

def connListObj (nm c1 c2 : String) : Obj :=
  ⟨"CONNECTORLIST",
   [⟨"Name", some "alpha", .str nm⟩,
    ⟨"Connector_1_Object_Type", none, .str "Connector:Splitter"⟩,
    ⟨"Connector_1_Name", none, .str c1⟩,
    ⟨"Connector_2_Object_Type", none, .str "Connector:Mixer"⟩,
    ⟨"Connector_2_Name", none, .str c2⟩]⟩

def splitterObj (nm fb : String) : Obj :=
  ⟨"CONNECTOR:SPLITTER",
   [⟨"Name", some "alpha", .str nm⟩,
    ⟨"Inlet_Branch_Name", none, .str fb⟩]⟩

def mixerObj (nm lb : String) : Obj :=
  ⟨"CONNECTOR:MIXER",
   [⟨"Name", some "alpha", .str nm⟩,
    ⟨"Outlet_Branch_Name", none, .str lb⟩]⟩

def branchObj (nm : String) : Obj :=
  ⟨"BRANCH",
   [⟨"Name", some "alpha", .str nm⟩,
    ⟨"Component_1_Object_Type", none, .str "Pipe:Adiabatic"⟩,
    ⟨"Component_1_Name", none, .str "oldpipe"⟩,
    ⟨"Component_1_Inlet_Node_Name", some "node", .str "b_in"⟩,
    ⟨"Component_1_Outlet_Node_Name", some "node", .str "b_out"⟩,
    ⟨"Component_1_Branch_Control_Type", none, .str ""⟩]⟩

/-- `splitterFirst` is the branch name the supply splitter records;
`c1out` is the pre-existing outlet node value of component 2. -/
def plantDoc (branchName splitterFirst c1out : String) : Idf :=
  [⟨"PLANTLOOP", loopObjFlds "LOOPIN" "LOOPOUT"⟩,
   branchObj branchName,
   pipeObj "c1" "c1_in" c1out,
   pipeObj "c2" "" "c2_out",
   connListObj "SCL" "SS" "SM",
   splitterObj "SS" splitterFirst,
   mixerObj "SM" "b9",
   connListObj "DCL" "DS" "DM",
   splitterObj "DS" "d1",
   mixerObj "DM" "d9"]

/-- Non-boundary replace whose chained component has a stale outlet value
equal to the loop's global inlet node: the rename propagation inside
`replacebranch` then rewrites the loop's own inlet field. -/
def collideDoc : Idf := plantDoc "bMain" "b1" "LOOPIN"

def collideComps : List (Nat × Option String) := [(2, none), (3, none)]

def collideOut : Idf :=
  resOk (replacebranch collideDoc 0 plantloopfields 1 collideComps "WATER")

/-- Non-boundary replace without a collision. -/
def frameDoc : Idf := plantDoc "bMain" "b1" "c1_out"

def frameOut : Idf :=
  resOk (replacebranch frameDoc 0 plantloopfields 1 collideComps "WATER")

/-- The pipeline stage after `connectcomponents` on `frameDoc`. -/
def frameIdf1 : Idf := resOk (connectcomponents frameDoc collideComps "WATER")

/-- The pipeline stage after `componentsintobranch` on `frameDoc`. -/
def frameIdf2 : Idf := resOk (componentsintobranch frameIdf1 1 collideComps "WATER")

/-- The pipeline stage after `connectcomponents` on `collideDoc`. -/
def collideIdf1 : Idf := resOk (connectcomponents collideDoc collideComps "WATER")

/-- The pipeline stage after `componentsintobranch` on `collideDoc`. -/
def collideIdf2 : Idf := resOk (componentsintobranch collideIdf1 1 collideComps "WATER")

/-- Boundary replace: the branch is the supply splitter's first branch. -/
def boundaryDoc : Idf := plantDoc "bMain" "bMain" "c1_out"

def boundaryComps : List (Nat × Option String) := [(2, none)]

def boundaryOut1 : Idf :=
  resOk (replacebranch boundaryDoc 0 plantloopfields 1 boundaryComps "WATER")

def boundaryOut2 : Idf :=
  resOk (replacebranch boundaryOut1 0 plantloopfields 1 boundaryComps "WATER")

/-- Unwrap a looked-up object (total, for stating concrete instances). -/
def theObj (o? : Option Obj) : Obj := o?.getD ⟨"", []⟩

/-- Boundary call 1 pipeline stages. -/
def bIdf1 : Idf := resOk (connectcomponents boundaryDoc boundaryComps "WATER")

def bIdf2 : Idf := resOk (componentsintobranch bIdf1 1 boundaryComps "WATER")

def bIdf3 : Idf := renamenodes bIdf2 "node"

def bIdf3s : Idf := resOk (stageField bIdf3 2 "Inlet_Node_Name" "LOOPIN")

/-- Boundary call 2 pipeline stages. -/
def cIdf1 : Idf := resOk (connectcomponents boundaryOut1 boundaryComps "WATER")

def cIdf2 : Idf := resOk (componentsintobranch cIdf1 1 boundaryComps "WATER")

def cIdf3 : Idf := renamenodes cIdf2 "node"

def cIdf3s : Idf := resOk (stageField cIdf3 2 "Inlet_Node_Name" "LOOPIN")

/-- Unwrap a looked-up field record (total, for stating concrete
instances). -/
def theFld (f? : Option Fld) : Fld := f?.getD ⟨"", none, .str ""⟩

/-- The field record at object `i`, position `j`. -/
def fldEntryAt (idf : Idf) (i j : Nat) : Option Fld :=
  (idf.get? i).bind (fun o => o.flds.get? j)

/-- The field value at object `i`, position `j`. -/
def fldValAt (idf : Idf) (i j : Nat) : Option Val :=
  (fldEntryAt idf i j).map (fun f => f.val)

/-- The field record of object `j` named `fn` (first with that name). -/
def fldAt? (idf : Idf) (j : Nat) (fn : String) : Option Fld :=
  (getObj? idf j).bind (fun o => o.flds.find? (fun f => f.name == fn))

/-- The name and schema type of a field, invariant under every value
write. -/
def fldShape (f : Fld) : String × Option String := (f.name, f.ftype)

/-- The key and field shapes of an object. -/
def objShape (o : Obj) : String × List (String × Option String) :=
  (o.key, o.flds.map fldShape)

end Hvac

namespace Hvac

theorem find?_name_map (fl : List Fld) (g : Fld → Fld) (hg : ∀ f, (g f).name = f.name)
    (fn : String) :
    (fl.map g).find? (fun f => f.name == fn) = (fl.find? (fun f => f.name == fn)).map g := by
  induction fl with
  | nil => rfl
  | cons f fs ih =>
    by_cases h : f.name = fn
    · rw [List.map_cons, List.find?_cons_of_pos _ (by simpa [hg] using h),
        List.find?_cons_of_pos _ (by simpa using h)]
      rfl
    · rw [List.map_cons, List.find?_cons_of_neg _ (by simpa [hg] using h),
        List.find?_cons_of_neg _ (by simpa using h)]
      exact ih

theorem getVal_map_name_pres (o : Obj) (g : Fld → Fld) (hg : ∀ f, (g f).name = f.name)
    (fn : String) :
    (Obj.getVal { o with flds := o.flds.map g } fn)
      = ((o.flds.find? (fun f => f.name == fn)).map g).map (fun f => f.val) := by
  unfold Obj.getVal
  rw [find?_name_map o.flds g hg fn]

theorem setVal_name_pres (fn : String) (v : Val) (f : Fld) :
    ((if f.name == fn then { f with val := v } else f) : Fld).name = f.name := by
  by_cases h : f.name = fn <;> simp [h]

theorem getVal_setVal_self (o : Obj) (fn : String) (v : Val) :
    (o.setVal fn v).getVal fn = (o.getVal fn).map (fun _ => v) := by
  unfold Obj.setVal
  rw [getVal_map_name_pres o _ (setVal_name_pres fn v) fn]
  unfold Obj.getVal
  cases hfind : o.flds.find? (fun f => f.name == fn) with
  | none => simp
  | some f0 =>
    have hp := List.find?_some hfind
    have hname : f0.name = fn := by simpa using hp
    simp [hname]

theorem getVal_setVal_ne (o : Obj) (fn fn' : String) (v : Val) (h : fn' ≠ fn) :
    (o.setVal fn v).getVal fn' = o.getVal fn' := by
  unfold Obj.setVal
  rw [getVal_map_name_pres o _ (setVal_name_pres fn v) fn']
  unfold Obj.getVal
  cases hfind : o.flds.find? (fun f => f.name == fn') with
  | none => simp
  | some f0 =>
    have hp := List.find?_some hfind
    have hname : f0.name = fn' := by simpa using hp
    simp [hname, h]

theorem setVal_shape (o : Obj) (fn : String) (v : Val) :
    objShape (o.setVal fn v) = objShape o := by
  unfold objShape Obj.setVal
  simp only [List.map_map]
  refine congrArg _ (List.map_congr_left ?_)
  intro f _
  by_cases h : f.name = fn <;> simp [fldShape, h]

theorem setVal_key (o : Obj) (fn : String) (v : Val) : (o.setVal fn v).key = o.key := rfl

theorem setVal_objname (o : Obj) (fn : String) (v : Val) (h : fn ≠ "Name") :
    (o.setVal fn v).name = o.name := by
  unfold Obj.name
  rw [getVal_setVal_ne o fn "Name" v (fun hc => h hc.symm)]

theorem getfieldnamesendswith_shape (o o' : Obj) (hs : objShape o = objShape o')
    (ends : String) : getfieldnamesendswith o ends = getfieldnamesendswith o' ends := by
  unfold getfieldnamesendswith
  have hn : o.flds.map (fun f => f.name) = o'.flds.map (fun f => f.name) := by
    have h2 := congrArg Prod.snd hs
    simp only [objShape] at h2
    have h3 := congrArg (List.map Prod.fst) h2
    simpa [List.map_map, fldShape, Function.comp] using h3
  rw [hn]

theorem getnodefieldname_shape (o o' : Obj) (hs : objShape o = objShape o')
    (ends fluid startw : String) :
    getnodefieldname o ends fluid startw = getnodefieldname o' ends fluid startw := by
  unfold getnodefieldname
  rw [getfieldnamesendswith_shape o o' hs ends]

theorem lt_length_of_get?_eq_some (l : Idf) (i : Nat) (o : Obj) (h : l.get? i = some o) :
    i < l.length := by
  have h2 := List.get?_eq_some.mp h
  obtain ⟨hlt, -⟩ := h2
  exact hlt

theorem getObj?_setObjVal_ne (idf : Idf) (i j : Nat) (fn : String) (v : Val) (h : j ≠ i) :
    getObj? (setObjVal idf i fn v) j = getObj? idf j := by
  unfold setObjVal getObj?
  cases hg : idf.get? i with
  | none => rfl
  | some o => exact List.get?_set_ne _ _ (fun he => h he.symm)

theorem getObj?_setObjVal_self (idf : Idf) (i : Nat) (fn : String) (v : Val) :
    getObj? (setObjVal idf i fn v) i = (getObj? idf i).map (fun o => o.setVal fn v) := by
  unfold setObjVal getObj?
  cases hg : idf.get? i with
  | none => exact hg
  | some o =>
    rw [List.get?_set_eq_of_lt _ (lt_length_of_get?_eq_some idf i o hg)]
    rfl

theorem fieldAt_setObjVal_self (idf : Idf) (i : Nat) (fn : String) (v : Val) :
    fieldAt (setObjVal idf i fn v) i fn = (fieldAt idf i fn).map (fun _ => v) := by
  unfold fieldAt
  rw [getObj?_setObjVal_self]
  cases hg : getObj? idf i with
  | none => rfl
  | some o => simpa using getVal_setVal_self o fn v

theorem fieldAt_setObjVal_ne (idf : Idf) (i j : Nat) (fn fn' : String) (v : Val)
    (h : j ≠ i ∨ fn' ≠ fn) :
    fieldAt (setObjVal idf i fn v) j fn' = fieldAt idf j fn' := by
  unfold fieldAt
  rcases h with h | h
  · rw [getObj?_setObjVal_ne idf i j fn v h]
  · by_cases hj : j = i
    · subst hj
      rw [getObj?_setObjVal_self]
      cases hg : getObj? idf j with
      | none => rfl
      | some o => simpa using getVal_setVal_ne o fn fn' v h
    · rw [getObj?_setObjVal_ne idf i j fn v hj]

theorem shapeAt_setObjVal (idf : Idf) (i j : Nat) (fn : String) (v : Val) :
    (getObj? (setObjVal idf i fn v) j).map objShape = (getObj? idf j).map objShape := by
  by_cases hj : j = i
  · subst hj
    rw [getObj?_setObjVal_self]
    cases hg : getObj? idf j with
    | none => rfl
    | some o => simpa using setVal_shape o fn v
  · rw [getObj?_setObjVal_ne idf i j fn v hj]

theorem nameAt_setObjVal (idf : Idf) (i j : Nat) (fn : String) (v : Val) (h : fn ≠ "Name") :
    (getObj? (setObjVal idf i fn v) j).map Obj.name = (getObj? idf j).map Obj.name := by
  by_cases hj : j = i
  · subst hj
    rw [getObj?_setObjVal_self]
    cases hg : getObj? idf j with
    | none => rfl
    | some o => simpa using setVal_objname o fn v h
  · rw [getObj?_setObjVal_ne idf i j fn v hj]

theorem length_setObjVal (idf : Idf) (i : Nat) (fn : String) (v : Val) :
    (setObjVal idf i fn v).length = idf.length := by
  unfold setObjVal
  cases idf.get? i with
  | none => rfl
  | some o => simp

theorem renamenodes_fldEntryAt (idf : Idf) (ft : String) (i j : Nat) :
    fldEntryAt (renamenodes idf ft) i j
      = (fldEntryAt idf i j).map (renameFld (collectRenameds idf) ft) := by
  unfold fldEntryAt renamenodes
  rw [List.get?_map]
  cases idf.get? i with
  | none => rfl
  | some o =>
    simp only [Option.map_some', Option.some_bind]
    unfold renameObj
    rw [List.get?_map]

/-- C2: after one invocation of `renamenodes` with field type `node`, no
field whose schema type is `node` holds a staged pair; a node field whose
prior plain value is a key of the staged rename table now holds the mapped
new identifier, and a staged node field collapsed to its new identifier. -/
theorem renamenodes_node_fixpoint (idf : Idf) (i j : Nat) (f : Fld)
    (hf : fldEntryAt idf i j = some f) (ht : f.ftype = some "node") :
    (∀ a b, fldValAt (renamenodes idf "node") i j ≠ some (Val.pair a b)) ∧
    (∀ v n, f.val = Val.str v → lookupLast (collectRenameds idf) v = some n →
      fldValAt (renamenodes idf "node") i j = some (Val.str n)) ∧
    (∀ a b, f.val = Val.pair a b → fldValAt (renamenodes idf "node") i j = some (Val.str b)) := by
  have hentry : fldEntryAt (renamenodes idf "node") i j
      = some (renameFld (collectRenameds idf) "node" f) := by
    rw [renamenodes_fldEntryAt, hf, Option.map_some']
  have hval : fldValAt (renamenodes idf "node") i j
      = some (renameVal (collectRenameds idf) f.ftype "node" f.val) := by
    unfold fldValAt
    rw [hentry]
    rfl
  rw [ht] at hval
  refine ⟨?_, ?_, ?_⟩
  · intro a b hcontra
    rw [hval] at hcontra
    cases hv : f.val with
    | pair x y =>
      rw [hv] at hcontra
      simp [renameVal] at hcontra
    | str s =>
      rw [hv] at hcontra
      cases hl : lookupLast (collectRenameds idf) s with
      | none => simp [renameVal, hl] at hcontra
      | some n => simp [renameVal, hl] at hcontra
  · intro v n hv hl
    rw [hval, hv]
    simp [renameVal, hl]
  · intro a b hv
    rw [hval, hv]
    simp [renameVal]

/-- C10: `renamenodes` leaves every field whose schema type differs from
the requested field type entirely unchanged — a staged pair stored there
stays staged, and a plain value equal to a staged old identifier is not
rewritten. -/
theorem renamenodes_other_type_frame (idf : Idf) (ftv : String) (i j : Nat) (f : Fld)
    (hf : fldEntryAt idf i j = some f) (ht : f.ftype ≠ some ftv) :
    fldEntryAt (renamenodes idf ftv) i j = some f := by
  rw [renamenodes_fldEntryAt, hf]
  have hfix : renameFld (collectRenameds idf) ftv f = f := by
    obtain ⟨nm, ft, v⟩ := f
    cases ft with
    | none => rfl
    | some t =>
      have htne : t ≠ ftv := by
        intro he
        exact ht (by rw [he])
      simp [renameFld, renameVal, htne]
  rw [Option.map_some', hfix]

theorem renamenodes_node_fixpoint_witness :
    fldValAt (renamenodes renameDemoIdf "node") 0 1 = some (Val.str "new_in") :=
  (renamenodes_node_fixpoint renameDemoIdf 0 1
      ⟨"Inlet_Node_Name", some "node", Val.pair "old_in" "new_in"⟩
      (by decide) (by decide)).2.2 "old_in" "new_in" rfl

theorem renamenodes_other_type_frame_witness :
    fldEntryAt (renamenodes renameDemoIdf "node") 1 2
      = some ⟨"Component_1_Name", none, Val.pair "stray_old" "stray_new"⟩ :=
  renamenodes_other_type_frame renameDemoIdf "node" 1 2
    ⟨"Component_1_Name", none, Val.pair "stray_old" "stray_new"⟩ (by decide) (by decide)

/-- C7 (amended): `getnodefieldname` filters the suffix-and-port-filtered
candidates by literal substring containment of the fluid hint — no
Steam-to-Water remapping happens inside the function (the docstring tells
callers to pass `Water` themselves) — and when the fluid filter empties, the
first entry of the candidate list not filtered by fluid, in schema field
order, is returned; otherwise the first fluid match wins. -/
theorem getnodefieldname_first_match (o : Obj) (ends fluid sw : String) :
    (((getfieldnamesendswith o ends).filter (fun n => strStartsWith n sw)).filter
        (fun n => strContains n fluid) = [] →
      getnodefieldname o ends fluid sw
        = ((getfieldnamesendswith o ends).filter (fun n => strStartsWith n sw)).head?) ∧
    (∀ c cs, ((getfieldnamesendswith o ends).filter (fun n => strStartsWith n sw)).filter
        (fun n => strContains n fluid) = c :: cs →
      getnodefieldname o ends fluid sw = some c) := by
  have hdouble :
      (((getfieldnamesendswith o ends).filter (fun n => strStartsWith n sw)).filter
          (fun n => strContains n fluid)).filter (fun n => strStartsWith n sw)
        = ((getfieldnamesendswith o ends).filter (fun n => strStartsWith n sw)).filter
            (fun n => strContains n fluid) := by
    apply List.filter_eq_self.mpr
    intro a ha
    have h1 : a ∈ (getfieldnamesendswith o ends).filter (fun n => strStartsWith n sw) :=
      (List.mem_filter.mp ha).1
    exact (List.mem_filter.mp h1).2
  constructor
  · intro hempty
    simp only [getnodefieldname]
    rw [hdouble, hempty]
    rfl
  · intro c cs hcons
    simp only [getnodefieldname]
    rw [hdouble, hcons]
    rfl

/-- C7 counterexample: with an air and a water inlet candidate, resolving
with fluid `Steam` picks the first (air) candidate via the empty-filter
fallback, while resolving with `Water` picks the water candidate — the
function does not treat `Steam` as `Water`. -/
theorem getnodefieldname_steam_not_water :
    getnodefieldname coilObj "Inlet_Node_Name" "Steam" "" = some "Air_Inlet_Node_Name" ∧
    getnodefieldname coilObj "Inlet_Node_Name" "Water" "" = some "Water_Inlet_Node_Name" ∧
    getnodefieldname coilObj "Inlet_Node_Name" "Steam" ""
      ≠ getnodefieldname coilObj "Inlet_Node_Name" "Water" "" := by
  refine ⟨by decide, by decide, by decide⟩

theorem getnodefieldname_first_match_witness :
    getnodefieldname coilObj "Inlet_Node_Name" "Water" "" = some "Water_Inlet_Node_Name" :=
  (getnodefieldname_first_match coilObj "Inlet_Node_Name" "Water" "").2
    "Water_Inlet_Node_Name" [] (by decide)

theorem isPrefixOf_append_self (l r : List Char) : l.isPrefixOf (l ++ r) = true := by
  rw [List.isPrefixOf_iff_prefix]
  exact List.prefix_append l r

theorem compFieldName_starts (k : Nat) (tl : String) :
    strStartsWith (compFieldName k tl) "Component_" = true := by
  unfold strStartsWith compFieldName
  have hdata : ("Component_" ++ toString k ++ "_" ++ tl).data
      = "Component_".data ++ ((toString k).data ++ ("_".data ++ tl.data)) := by
    simp
  rw [hdata]
  exact isPrefixOf_append_self _ _

theorem drop_five_cons (a b c d e : Fld) (l : List Fld) (n : Nat) :
    (a :: b :: c :: d :: e :: l).drop (n + 5) = l.drop n := by
  have h1 : n + 5 = (((((n + 1) + 1) + 1) + 1) + 1) := by omega
  rw [h1]
  simp only [List.drop_succ_cons]

theorem branchSlotFields_spec (comps : List (Nat × Option String)) :
    ∀ (idf : Idf) (fluid : String) (k : Nat) (slots : List Fld),
      branchSlotFields idf comps fluid k = .ok slots →
      slots.length = 5 * comps.length ∧
      (∀ f ∈ slots, strStartsWith f.name "Component_" = true) ∧
      (∀ j ca, comps.get? j = some ca →
        ∃ c infn outfn iv ov,
          getObj? idf ca.1 = some c ∧
          getnodefieldname c "Inlet_Node_Name" fluid (ca.2.getD "") = some infn ∧
          getnodefieldname c "Outlet_Node_Name" fluid (ca.2.getD "") = some outfn ∧
          c.getVal infn = some iv ∧ c.getVal outfn = some ov ∧
          slots.drop (5 * j)
            = ⟨compFieldName (k + j) "Object_Type", none, .str c.key⟩
              :: ⟨compFieldName (k + j) "Name", none, .str c.name⟩
              :: ⟨compFieldName (k + j) "Inlet_Node_Name", some "node", iv⟩
              :: ⟨compFieldName (k + j) "Outlet_Node_Name", some "node", ov⟩
              :: ⟨compFieldName (k + j) "Branch_Control_Type", none, .str ""⟩
              :: slots.drop (5 * j + 5)) := by
  induction comps with
  | nil =>
    intro idf fluid k slots h
    simp only [branchSlotFields] at h
    cases h
    refine ⟨rfl, ?_, ?_⟩
    · intro f hf
      simp at hf
    · intro j ca hj
      simp at hj
  | cons ca0 rest ih =>
    intro idf fluid k slots h
    simp only [branchSlotFields] at h
    cases hobj : getObj? idf ca0.1 with
    | none => simp only [hobj] at h; cases h
    | some c =>
      simp only [hobj] at h
      cases hin : getnodefieldname c "Inlet_Node_Name" fluid (ca0.2.getD "") with
      | none => simp only [hin] at h; cases h
      | some infn =>
        simp only [hin] at h
        cases hout : getnodefieldname c "Outlet_Node_Name" fluid (ca0.2.getD "") with
        | none => simp only [hout] at h; cases h
        | some outfn =>
          simp only [hout] at h
          cases hiv : c.getVal infn with
          | none => simp only [hiv] at h; cases h
          | some iv =>
            simp only [hiv] at h
            cases hov : c.getVal outfn with
            | none => simp only [hov] at h; cases h
            | some ov =>
              simp only [hov] at h
              cases hrest : branchSlotFields idf rest fluid (k + 1) with
              | error e => simp only [hrest] at h; cases h
              | ok restSlots =>
                simp only [hrest] at h
                cases h
                obtain ⟨ihlen, ihnames, ihspec⟩ := ih idf fluid (k + 1) restSlots hrest
                refine ⟨?_, ?_, ?_⟩
                · simp [ihlen]
                  omega
                · intro f hf
                  simp only [List.cons_append, List.nil_append, List.mem_cons] at hf
                  rcases hf with hf | hf | hf | hf | hf | hf
                  · subst hf; exact compFieldName_starts k "Object_Type"
                  · subst hf; exact compFieldName_starts k "Name"
                  · subst hf; exact compFieldName_starts k "Inlet_Node_Name"
                  · subst hf; exact compFieldName_starts k "Outlet_Node_Name"
                  · subst hf; exact compFieldName_starts k "Branch_Control_Type"
                  · exact ihnames f hf
                · intro j cb hj
                  cases j with
                  | zero =>
                    simp only [List.get?] at hj
                    cases hj
                    refine ⟨c, infn, outfn, iv, ov, hobj, hin, hout, hiv, hov, ?_⟩
                    rfl
                  | succ j1 =>
                    simp only [List.get?] at hj
                    obtain ⟨c2, infn2, outfn2, iv2, ov2, ho2, hi2, hu2, hv2, hw2, hd2⟩ :=
                      ihspec j1 cb hj
                    refine ⟨c2, infn2, outfn2, iv2, ov2, ho2, hi2, hu2, hv2, hw2, ?_⟩
                    have harith : 5 * (j1 + 1) = 5 * j1 + 5 := by omega
                    have hidx : k + 1 + j1 = k + (j1 + 1) := by omega
                    rw [hidx] at hd2
                    rw [harith]
                    simp only [List.cons_append, List.nil_append]
                    rw [drop_five_cons, drop_five_cons]
                    exact hd2

/-- C3: `componentsintobranch` replaces the branch contents: the prior
extensible entries are cleared and the written branch carries exactly
`5 * n` extensible field slots, appended per component in list order as
(object type, name, resolved inlet node value, resolved outlet node value,
blank branch-control-type). -/
theorem componentsintobranch_slots (idf : Idf) (bi : Nat)
    (comps : List (Nat × Option String)) (fluid : String) (idf' : Idf) (b : Obj)
    (slots : List Fld)
    (hb : getObj? idf bi = some b)
    (hs : branchSlotFields (idf.set bi (clearExtensibles b)) comps fluid 1 = .ok slots)
    (h : componentsintobranch idf bi comps fluid = .ok idf') :
    getObj? idf' bi = some { key := b.key, flds := (clearExtensibles b).flds ++ slots } ∧
    ((clearExtensibles b).flds ++ slots).filter (fun f => strStartsWith f.name "Component_")
      = slots ∧
    slots.length = 5 * comps.length ∧
    (∀ j ca, comps.get? j = some ca →
      ∃ c infn outfn iv ov,
        getObj? (idf.set bi (clearExtensibles b)) ca.1 = some c ∧
        getnodefieldname c "Inlet_Node_Name" fluid (ca.2.getD "") = some infn ∧
        getnodefieldname c "Outlet_Node_Name" fluid (ca.2.getD "") = some outfn ∧
        c.getVal infn = some iv ∧ c.getVal outfn = some ov ∧
        slots.drop (5 * j)
          = ⟨compFieldName (1 + j) "Object_Type", none, .str c.key⟩
            :: ⟨compFieldName (1 + j) "Name", none, .str c.name⟩
            :: ⟨compFieldName (1 + j) "Inlet_Node_Name", some "node", iv⟩
            :: ⟨compFieldName (1 + j) "Outlet_Node_Name", some "node", ov⟩
            :: ⟨compFieldName (1 + j) "Branch_Control_Type", none, .str ""⟩
            :: slots.drop (5 * j + 5)) := by
  obtain ⟨hlen, hnames, hspec⟩ :=
    branchSlotFields_spec comps (idf.set bi (clearExtensibles b)) fluid 1 slots hs
  have hlt := lt_length_of_get?_eq_some idf bi b hb
  have hb1 : getObj? (idf.set bi (clearExtensibles b)) bi = some (clearExtensibles b) := by
    unfold getObj?
    rw [List.get?_set_eq_of_lt _ hlt]
  simp only [componentsintobranch, hb, hs, hb1] at h
  cases h
  refine ⟨?_, ?_, hlen, hspec⟩
  · unfold getObj?
    have hlt2 : bi < (idf.set bi (clearExtensibles b)).length := by
      simpa using hlt
    rw [List.get?_set_eq_of_lt _ hlt2]
    rfl
  · rw [List.filter_append]
    have h1 : (clearExtensibles b).flds.filter (fun f => strStartsWith f.name "Component_")
        = [] := by
      apply List.filter_eq_nil.mpr
      intro f hf
      unfold clearExtensibles at hf
      have h2 := (List.mem_filter.mp hf).2
      simp only [Bool.not_eq_true'] at h2
      simp [h2]
    have h2 : slots.filter (fun f => strStartsWith f.name "Component_") = slots := by
      apply List.filter_eq_self.mpr
      intro f hf
      exact hnames f hf
    rw [h1, h2, List.nil_append]

theorem ends_ne_name (fn suf : String) (hsuf : strEndsWith "Name" suf = false)
    (h : strEndsWith fn suf = true) : fn ≠ "Name" := by
  intro he
  rw [he, hsuf] at h
  cases h

theorem mem_getfieldnamesendswith (o : Obj) (ends fn : String)
    (h : fn ∈ getfieldnamesendswith o ends) : strEndsWith fn ends = true :=
  (List.mem_filter.mp h).2

theorem getnodefieldname_endsWith (o : Obj) (ends fluid sw fn : String)
    (h : getnodefieldname o ends fluid sw = some fn) : strEndsWith fn ends = true := by
  simp only [getnodefieldname] at h
  split at h
  · have hm := List.mem_of_mem_head? h
    exact mem_getfieldnamesendswith o ends fn (List.mem_filter.mp hm).1
  · have hm := List.mem_of_mem_head? h
    have h1 := (List.mem_filter.mp hm).1
    have h2 := (List.mem_filter.mp h1).1
    exact mem_getfieldnamesendswith o ends fn (List.mem_filter.mp h2).1

theorem trimfields_sub (idf : Idf) (o : Obj) (fields inletfields : List String)
    (tn : Option String) (res : List String)
    (h : trimfields idf o fields inletfields tn = .ok res) : ∀ fn ∈ res, fn ∈ fields := by
  unfold trimfields at h
  split at h
  · cases tn with
    | none => cases h
    | some t =>
      cases h
      intro fn hfn
      exact (List.mem_filter.mp hfn).1
  · cases h
    intro fn hfn
    exact hfn

theorem initOneField_getObj_ne (idf : Idf) (oi : Nat) (fn : String) (force : Bool) (j : Nat)
    (h : j ≠ oi) : getObj? (initOneField idf oi fn force) j = getObj? idf j := by
  unfold initOneField
  split
  · split
    · split
      · exact getObj?_setObjVal_ne idf oi j fn _ h
      · rfl
    · rfl
  · rfl

theorem initOneField_shape (idf : Idf) (oi : Nat) (fn : String) (force : Bool) (j : Nat) :
    (getObj? (initOneField idf oi fn force) j).map objShape
      = (getObj? idf j).map objShape := by
  unfold initOneField
  split
  · split
    · split
      · exact shapeAt_setObjVal idf oi j fn _
      · rfl
    · rfl
  · rfl

theorem initOneField_objname (idf : Idf) (oi : Nat) (fn : String) (force : Bool) (j : Nat)
    (h : fn ≠ "Name") :
    (getObj? (initOneField idf oi fn force) j).map Obj.name
      = (getObj? idf j).map Obj.name := by
  unfold initOneField
  split
  · split
    · split
      · exact nameAt_setObjVal idf oi j fn _ h
      · rfl
    · rfl
  · rfl

theorem initOneField_pair (idf : Idf) (oi : Nat) (fn : String) (j : Nat) (fn' : String)
    (a b : String) (h : fieldAt idf j fn' = some (.pair a b)) :
    fieldAt (initOneField idf oi fn false) j fn' = some (.pair a b) := by
  unfold initOneField
  split
  next o hgo =>
    split
    next v hv =>
      split
      next hcond =>
        by_cases hj : j = oi ∧ fn' = fn
        · obtain ⟨hj1, hj2⟩ := hj
          subst hj1
          subst hj2
          have hfv : fieldAt idf j fn' = some v := by
            unfold fieldAt getObj?
            unfold getObj? at hgo
            rw [hgo]
            exact hv
          rw [h] at hfv
          have hveq : v = Val.pair a b := by
            cases hfv
            rfl
          rw [hveq] at hcond
          simp [blankfield] at hcond
        · have hor : j ≠ oi ∨ fn' ≠ fn := by
            by_cases h1 : j = oi
            · right
              intro h2
              exact hj ⟨h1, h2⟩
            · left
              exact h1
          rw [fieldAt_setObjVal_ne idf oi j fn fn' _ hor]
          exact h
      next hcond => exact h
    next hv => exact h
  next hgo => exact h

theorem initFields_getObj_ne (fields : List String) :
    ∀ (idf : Idf) (oi : Nat) (force : Bool) (j : Nat), j ≠ oi →
      getObj? (initFields idf oi fields force) j = getObj? idf j := by
  induction fields with
  | nil => intro idf oi force j h; rfl
  | cons fn rest ih =>
    intro idf oi force j h
    simp only [initFields]
    rw [ih (initOneField idf oi fn force) oi force j h]
    exact initOneField_getObj_ne idf oi fn force j h

theorem initFields_shape (fields : List String) :
    ∀ (idf : Idf) (oi : Nat) (force : Bool) (j : Nat),
      (getObj? (initFields idf oi fields force) j).map objShape
        = (getObj? idf j).map objShape := by
  induction fields with
  | nil => intro idf oi force j; rfl
  | cons fn rest ih =>
    intro idf oi force j
    simp only [initFields]
    rw [ih (initOneField idf oi fn force) oi force j]
    exact initOneField_shape idf oi fn force j

theorem initFields_objname (fields : List String) :
    ∀ (idf : Idf) (oi : Nat) (force : Bool) (j : Nat), (∀ fn ∈ fields, fn ≠ "Name") →
      (getObj? (initFields idf oi fields force) j).map Obj.name
        = (getObj? idf j).map Obj.name := by
  induction fields with
  | nil => intro idf oi force j hmem; rfl
  | cons fn rest ih =>
    intro idf oi force j hmem
    simp only [initFields]
    rw [ih (initOneField idf oi fn force) oi force j
      (fun g hg => hmem g (List.mem_cons_of_mem fn hg))]
    exact initOneField_objname idf oi fn force j (hmem fn (List.mem_cons_self fn rest))

theorem initFields_pair (fields : List String) :
    ∀ (idf : Idf) (oi : Nat) (j : Nat) (fn' : String) (a b : String),
      fieldAt idf j fn' = some (.pair a b) →
      fieldAt (initFields idf oi fields false) j fn' = some (.pair a b) := by
  induction fields with
  | nil => intro idf oi j fn' a b h; exact h
  | cons fn rest ih =>
    intro idf oi j fn' a b h
    simp only [initFields]
    exact ih (initOneField idf oi fn false) oi j fn' a b (initOneField_pair idf oi fn j fn' a b h)

theorem initinletoutlet_ok_elim (idf : Idf) (oi : Nat) (tn : Option String) (force : Bool)
    (idf' : Idf) (h : initinletoutlet idf oi tn force = .ok idf') :
    ∃ infs outfs,
      (∀ fn ∈ infs, strEndsWith fn "Inlet_Node_Name" = true) ∧
      (∀ fn ∈ outfs, strEndsWith fn "Outlet_Node_Name" = true) ∧
      idf' = initFields (initFields idf oi infs force) oi outfs force := by
  simp only [initinletoutlet] at h
  split at h
  · cases h
  next o hgo =>
    split at h
    next e herr => cases h
    next infs htrim =>
      split at h
      · cases h
      next o1 hgo1 =>
        split at h
        next e herr => cases h
        next outfs htrim2 =>
          cases h
          refine ⟨infs, outfs, ?_, ?_, rfl⟩
          · intro fn hfn
            exact mem_getfieldnamesendswith o "Inlet_Node_Name" fn
              (trimfields_sub idf o _ _ tn infs htrim fn hfn)
          · intro fn hfn
            exact mem_getfieldnamesendswith o1 "Outlet_Node_Name" fn
              (trimfields_sub _ o1 _ _ tn outfs htrim2 fn hfn)

theorem initinletoutlet_ok_props (idf : Idf) (oi : Nat) (tn : Option String)
    (idf' : Idf) (h : initinletoutlet idf oi tn false = .ok idf') :
    (∀ j, j ≠ oi → getObj? idf' j = getObj? idf j) ∧
    (∀ j, (getObj? idf' j).map objShape = (getObj? idf j).map objShape) ∧
    (∀ j, (getObj? idf' j).map Obj.name = (getObj? idf j).map Obj.name) ∧
    (∀ j fn a b, fieldAt idf j fn = some (.pair a b) → fieldAt idf' j fn = some (.pair a b)) := by
  obtain ⟨infs, outfs, hin, hout, heq⟩ := initinletoutlet_ok_elim idf oi tn false idf' h
  subst heq
  refine ⟨?_, ?_, ?_, ?_⟩
  · intro j hj
    rw [initFields_getObj_ne outfs _ oi false j hj, initFields_getObj_ne infs idf oi false j hj]
  · intro j
    rw [initFields_shape outfs _ oi false j, initFields_shape infs idf oi false j]
  · intro j
    rw [initFields_objname outfs _ oi false j
        (fun fn hfn => ends_ne_name fn "Outlet_Node_Name" (by decide) (hout fn hfn)),
      initFields_objname infs idf oi false j
        (fun fn hfn => ends_ne_name fn "Inlet_Node_Name" (by decide) (hin fn hfn))]
  · intro j fn a b hp
    exact initFields_pair outfs _ oi j fn a b (initFields_pair infs idf oi j fn a b hp)

theorem stageField_ok_elim (idf : Idf) (oi : Nat) (fn nn : String) (idf' : Idf)
    (h : stageField idf oi fn nn = .ok idf') :
    ∃ s, fieldAt idf oi fn = some (.str s) ∧ idf' = setObjVal idf oi fn (.pair s nn) := by
  unfold stageField at h
  split at h
  · cases h
  next o hgo =>
    split at h
    next s hv =>
      cases h
      refine ⟨s, ?_, rfl⟩
      unfold fieldAt
      rw [hgo]
      exact hv
    next hv => cases h

theorem stageField_getObj_ne (idf : Idf) (oi : Nat) (fn nn : String) (idf' : Idf)
    (h : stageField idf oi fn nn = .ok idf') (j : Nat) (hj : j ≠ oi) :
    getObj? idf' j = getObj? idf j := by
  obtain ⟨s, hs, heq⟩ := stageField_ok_elim idf oi fn nn idf' h
  subst heq
  exact getObj?_setObjVal_ne idf oi j fn _ hj

theorem stageField_shape (idf : Idf) (oi : Nat) (fn nn : String) (idf' : Idf)
    (h : stageField idf oi fn nn = .ok idf') (j : Nat) :
    (getObj? idf' j).map objShape = (getObj? idf j).map objShape := by
  obtain ⟨s, hs, heq⟩ := stageField_ok_elim idf oi fn nn idf' h
  subst heq
  exact shapeAt_setObjVal idf oi j fn _

theorem stageField_objname (idf : Idf) (oi : Nat) (fn nn : String) (idf' : Idf)
    (h : stageField idf oi fn nn = .ok idf') (hfn : fn ≠ "Name") (j : Nat) :
    (getObj? idf' j).map Obj.name = (getObj? idf j).map Obj.name := by
  obtain ⟨s, hs, heq⟩ := stageField_ok_elim idf oi fn nn idf' h
  subst heq
  exact nameAt_setObjVal idf oi j fn _ hfn

theorem stageField_pair_preserved (idf : Idf) (oi : Nat) (fn nn : String) (idf' : Idf)
    (h : stageField idf oi fn nn = .ok idf') (j : Nat) (fn' : String) (a b : String)
    (hp : fieldAt idf j fn' = some (.pair a b)) :
    fieldAt idf' j fn' = some (.pair a b) := by
  obtain ⟨s, hs, heq⟩ := stageField_ok_elim idf oi fn nn idf' h
  subst heq
  by_cases hj : j = oi ∧ fn' = fn
  · obtain ⟨h1, h2⟩ := hj
    subst h1
    subst h2
    rw [hp] at hs
    cases hs
  · have hor : j ≠ oi ∨ fn' ≠ fn := by
      by_cases h1 : j = oi
      · right
        intro h2
        exact hj ⟨h1, h2⟩
      · left
        exact h1
    rw [fieldAt_setObjVal_ne idf oi j fn fn' _ hor]
    exact hp

theorem transfer_obj (idf idfb : Idf) (j : Nat) (o : Obj)
    (hsh : (getObj? idfb j).map objShape = (getObj? idf j).map objShape)
    (hnm : (getObj? idfb j).map Obj.name = (getObj? idf j).map Obj.name)
    (ho : getObj? idfb j = some o) :
    ∃ o0, getObj? idf j = some o0 ∧ objShape o0 = objShape o ∧ o0.name = o.name := by
  rw [ho] at hsh hnm
  cases hg : getObj? idf j with
  | none =>
    rw [hg] at hsh
    simp at hsh
  | some o0 =>
    rw [hg] at hsh hnm
    refine ⟨o0, rfl, ?_, ?_⟩
    · have h2 : objShape o = objShape o0 := by simpa using hsh
      exact h2.symm
    · have h2 : Obj.name o = Obj.name o0 := by simpa using hnm
      exact h2.symm

theorem connectAdj_preserve (pairs : List ((Nat × Option String) × (Nat × Option String))) :
    ∀ (idf idf' : Idf) (fluid : String),
      connectAdj idf pairs fluid = .ok idf' →
      (∀ j, (getObj? idf' j).map objShape = (getObj? idf j).map objShape) ∧
      (∀ j, (getObj? idf' j).map Obj.name = (getObj? idf j).map Obj.name) ∧
      (∀ j fn a b, fieldAt idf j fn = some (.pair a b) → fieldAt idf' j fn = some (.pair a b)) ∧
      (∀ j, j ∉ pairs.map (fun p => p.1.1) → j ∉ pairs.map (fun p => p.2.1) →
        getObj? idf' j = getObj? idf j) := by
  induction pairs with
  | nil =>
    intro idf idf' fluid h
    simp only [connectAdj] at h
    cases h
    exact ⟨fun j => rfl, fun j => rfl, fun j fn a b hp => hp, fun j h1 h2 => rfl⟩
  | cons pr rest ih =>
    obtain ⟨⟨ai, an⟩, ⟨bi, bn⟩⟩ := pr
    intro idf idf' fluid h
    simp only [connectAdj] at h
    split at h
    next e h1 => cases h
    next idf1 hinit1 =>
      split at h
      next e h2 => cases h
      next idf2 hinit2 =>
        split at h
        next ao bo hao hbo =>
          split at h
          · cases h
          next oname honame =>
            split at h
            next e h3 => cases h
            next idf3 hstage1 =>
              split at h
              · cases h
              next iname hiname =>
                split at h
                next e h4 => cases h
                next idf4 hstage2 =>
                  obtain ⟨ihsh, ihnm, ihpr, ihfr⟩ := ih idf4 idf' fluid h
                  obtain ⟨f1, s1, n1, p1⟩ := initinletoutlet_ok_props idf ai an idf1 hinit1
                  obtain ⟨f2, s2, n2, p2⟩ := initinletoutlet_ok_props idf1 bi bn idf2 hinit2
                  have hon : oname ≠ "Name" :=
                    ends_ne_name oname "Outlet_Node_Name" (by decide)
                      (getnodefieldname_endsWith ao "Outlet_Node_Name" fluid (an.getD "")
                        oname honame)
                  have hin : iname ≠ "Name" :=
                    ends_ne_name iname "Inlet_Node_Name" (by decide)
                      (getnodefieldname_endsWith bo "Inlet_Node_Name" fluid "" iname hiname)
                  refine ⟨?_, ?_, ?_, ?_⟩
                  · intro j
                    rw [ihsh j, stageField_shape _ _ _ _ _ hstage2 j,
                      stageField_shape _ _ _ _ _ hstage1 j, s2 j, s1 j]
                  · intro j
                    rw [ihnm j, stageField_objname _ _ _ _ _ hstage2 hin j,
                      stageField_objname _ _ _ _ _ hstage1 hon j, n2 j, n1 j]
                  · intro j fn a b hp
                    exact ihpr j fn a b (stageField_pair_preserved _ _ _ _ _ hstage2 j fn a b
                      (stageField_pair_preserved _ _ _ _ _ hstage1 j fn a b
                        (p2 j fn a b (p1 j fn a b hp))))
                  · intro j hj1 hj2
                    simp only [List.map_cons, List.mem_cons] at hj1 hj2
                    push_neg at hj1 hj2
                    obtain ⟨hja, hj1r⟩ := hj1
                    obtain ⟨hjb, hj2r⟩ := hj2
                    rw [ihfr j hj1r hj2r,
                      stageField_getObj_ne _ _ _ _ _ hstage2 j hjb,
                      stageField_getObj_ne _ _ _ _ _ hstage1 j hja,
                      f2 j hjb, f1 j hja]
        next hcat =>
          cases h

theorem connectAdj_adjacent (pairs : List ((Nat × Option String) × (Nat × Option String))) :
    ∀ (idf idf' : Idf) (fluid : String),
      connectAdj idf pairs fluid = .ok idf' →
      ∀ pa, pa ∈ pairs →
        ∃ ao bo oname iname sa sb,
          getObj? idf pa.1.1 = some ao ∧ getObj? idf pa.2.1 = some bo ∧
          getnodefieldname ao "Outlet_Node_Name" fluid (pa.1.2.getD "") = some oname ∧
          getnodefieldname bo "Inlet_Node_Name" fluid "" = some iname ∧
          fieldAt idf' pa.1.1 oname
            = some (.pair sa (ao.name ++ "_" ++ bo.name ++ "_node")) ∧
          fieldAt idf' pa.2.1 iname
            = some (.pair sb (ao.name ++ "_" ++ bo.name ++ "_node")) := by
  induction pairs with
  | nil =>
    intro idf idf' fluid h pa hpa
    simp at hpa
  | cons pr rest ih =>
    obtain ⟨⟨ai, an⟩, ⟨bi, bn⟩⟩ := pr
    intro idf idf' fluid h pa hpa
    simp only [connectAdj] at h
    split at h
    next e h1 => cases h
    next idf1 hinit1 =>
      split at h
      next e h2 => cases h
      next idf2 hinit2 =>
        split at h
        next ao bo hao hbo =>
          split at h
          · cases h
          next oname honame =>
            split at h
            next e h3 => cases h
            next idf3 hstage1 =>
              split at h
              · cases h
              next iname hiname =>
                split at h
                next e h4 => cases h
                next idf4 hstage2 =>
                  obtain ⟨f1, s1, n1, p1⟩ := initinletoutlet_ok_props idf ai an idf1 hinit1
                  obtain ⟨f2, s2, n2, p2⟩ := initinletoutlet_ok_props idf1 bi bn idf2 hinit2
                  have hsh2 : ∀ j, (getObj? idf2 j).map objShape
                      = (getObj? idf j).map objShape := fun j => by rw [s2 j, s1 j]
                  have hnm2 : ∀ j, (getObj? idf2 j).map Obj.name
                      = (getObj? idf j).map Obj.name := fun j => by rw [n2 j, n1 j]
                  obtain ⟨prsh, prnm, prpr, prfr⟩ :=
                    connectAdj_preserve rest idf4 idf' fluid h
                  rcases List.mem_cons.mp hpa with hpa | hpa
                  · subst hpa
                    obtain ⟨ao0, hao0, haosh, haonm⟩ :=
                      transfer_obj idf idf2 ai ao (hsh2 ai) (hnm2 ai) hao
                    obtain ⟨bo0, hbo0, hbosh, hbonm⟩ :=
                      transfer_obj idf idf2 bi bo (hsh2 bi) (hnm2 bi) hbo
                    obtain ⟨sa, hsa, heq3⟩ := stageField_ok_elim idf2 ai oname _ idf3 hstage1
                    obtain ⟨sb, hsb, heq4⟩ := stageField_ok_elim idf3 bi iname _ idf4 hstage2
                    refine ⟨ao0, bo0, oname, iname, sa, sb, hao0, hbo0, ?_, ?_, ?_, ?_⟩
                    · rw [getnodefieldname_shape ao0 ao haosh]
                      exact honame
                    · rw [getnodefieldname_shape bo0 bo hbosh]
                      exact hiname
                    · rw [haonm, hbonm]
                      apply prpr
                      have hat3 : fieldAt idf3 ai oname
                          = some (.pair sa (ao.name ++ "_" ++ bo.name ++ "_node")) := by
                        rw [heq3, fieldAt_setObjVal_self, hsa]
                        rfl
                      exact stageField_pair_preserved idf3 bi iname _ idf4 hstage2 ai oname
                        _ _ hat3
                    · rw [haonm, hbonm]
                      apply prpr
                      rw [heq4, fieldAt_setObjVal_self, hsb]
                      rfl
                  · have hstep_sh : ∀ j, (getObj? idf4 j).map objShape
                        = (getObj? idf j).map objShape := fun j => by
                      rw [stageField_shape _ _ _ _ _ hstage2 j,
                        stageField_shape _ _ _ _ _ hstage1 j, hsh2 j]
                    have hon : oname ≠ "Name" :=
                      ends_ne_name oname "Outlet_Node_Name" (by decide)
                        (getnodefieldname_endsWith ao "Outlet_Node_Name" fluid (an.getD "")
                          oname honame)
                    have hin : iname ≠ "Name" :=
                      ends_ne_name iname "Inlet_Node_Name" (by decide)
                        (getnodefieldname_endsWith bo "Inlet_Node_Name" fluid "" iname hiname)
                    have hstep_nm : ∀ j, (getObj? idf4 j).map Obj.name
                        = (getObj? idf j).map Obj.name := fun j => by
                      rw [stageField_objname _ _ _ _ _ hstage2 hin j,
                        stageField_objname _ _ _ _ _ hstage1 hon j, hnm2 j]
                    obtain ⟨ao4, bo4, oname4, iname4, sa, sb, hao4, hbo4, hres1, hres2, hv1, hv2⟩ :=
                      ih idf4 idf' fluid h pa hpa
                    obtain ⟨ao0, hao0, haosh, haonm⟩ :=
                      transfer_obj idf idf4 pa.1.1 ao4 (hstep_sh pa.1.1) (hstep_nm pa.1.1) hao4
                    obtain ⟨bo0, hbo0, hbosh, hbonm⟩ :=
                      transfer_obj idf idf4 pa.2.1 bo4 (hstep_sh pa.2.1) (hstep_nm pa.2.1) hbo4
                    refine ⟨ao0, bo0, oname4, iname4, sa, sb, hao0, hbo0, ?_, ?_, ?_, ?_⟩
                    · rw [getnodefieldname_shape ao0 ao4 haosh]
                      exact hres1
                    · rw [getnodefieldname_shape bo0 bo4 hbosh]
                      exact hres2
                    · rw [haonm, hbonm]
                      exact hv1
                    · rw [haonm, hbonm]
                      exact hv2
        next hcat =>
          cases h

theorem renameObj_getVal (tbl : List (String × String)) (ft : String) (o : Obj) (fn : String) :
    (renameObj tbl ft o).getVal fn
      = ((o.flds.find? (fun f => f.name == fn)).map (renameFld tbl ft)).map
          (fun f => f.val) := by
  unfold renameObj
  exact getVal_map_name_pres o (renameFld tbl ft) (fun f => rfl) fn

theorem renamenodes_getObj (idf : Idf) (ft : String) (j : Nat) :
    getObj? (renamenodes idf ft) j
      = (getObj? idf j).map (renameObj (collectRenameds idf) ft) := by
  unfold renamenodes getObj?
  exact List.get?_map _ _ _

theorem fieldAt_eq_fldAt? (idf : Idf) (j : Nat) (fn : String) :
    fieldAt idf j fn = (fldAt? idf j fn).map (fun f => f.val) := by
  unfold fieldAt fldAt? Obj.getVal
  cases getObj? idf j with
  | none => rfl
  | some o => rfl

/-- A plain value survives `renamenodes` whenever the rename table maps it
to nothing new (to itself or not at all), whatever the field's type. -/
theorem renamenodes_str_preserved (idf : Idf) (ft : String) (j : Nat) (fn : String) (v : String)
    (hv : fieldAt idf j fn = some (.str v))
    (hl : ∀ n, lookupLast (collectRenameds idf) v = some n → n = v) :
    fieldAt (renamenodes idf ft) j fn = some (.str v) := by
  cases hg : getObj? idf j with
  | none =>
    simp only [fieldAt, hg] at hv
    cases hv
  | some o =>
    simp only [fieldAt, hg] at hv
    have hgoal : fieldAt (renamenodes idf ft) j fn
        = (renameObj (collectRenameds idf) ft o).getVal fn := by
      simp only [fieldAt, renamenodes_getObj, hg, Option.map_some']
    rw [hgoal, renameObj_getVal]
    unfold Obj.getVal at hv
    cases hf : o.flds.find? (fun f => f.name == fn) with
    | none =>
      rw [hf] at hv
      cases hv
    | some f0 =>
      rw [hf] at hv
      simp only [Option.map_some'] at hv ⊢
      have hval : f0.val = .str v := Option.some.inj hv
      unfold renameFld renameVal
      cases hft : f0.ftype with
      | none => simp [hval]
      | some t =>
        by_cases hteq : t = ft
        · subst hteq
          simp only [if_pos rfl, hval]
          cases hlk : lookupLast (collectRenameds idf) v with
          | none => simp
          | some n =>
            have hn := hl n hlk
            subst hn
            simp
        · simp [hteq, hval]

/-- A staged pair in a field of the requested type collapses to its new
value. -/
theorem renamenodes_pair_collapse (idf : Idf) (ft : String) (j : Nat) (fn : String)
    (f : Fld) (hf : fldAt? idf j fn = some f) (hft : f.ftype = some ft) (a b : String)
    (hv : f.val = .pair a b) :
    fieldAt (renamenodes idf ft) j fn = some (.str b) := by
  unfold fldAt? at hf
  cases hg : getObj? idf j with
  | none =>
    rw [hg] at hf
    cases hf
  | some o =>
    rw [hg] at hf
    simp only [Option.some_bind] at hf
    have hgoal : fieldAt (renamenodes idf ft) j fn
        = (renameObj (collectRenameds idf) ft o).getVal fn := by
      simp only [fieldAt, renamenodes_getObj, hg, Option.map_some']
    rw [hgoal, renameObj_getVal, hf]
    simp only [Option.map_some']
    unfold renameFld renameVal
    rw [hft, hv]
    simp

theorem detectConnector_ok (idf : Idf) (con : Obj) (st st' : Option (Val × Bool))
    (h : detectConnector idf con st = .ok st') :
    (∃ v, con.key = "CONNECTOR:SPLITTER" ∧ con.getVal "Inlet_Branch_Name" = some v ∧
      st' = some (v, true)) ∨
    (∃ v, con.key = "CONNECTOR:MIXER" ∧ con.getVal "Outlet_Branch_Name" = some v ∧
      st' = some (v, false)) ∨
    (con.key ≠ "CONNECTOR:SPLITTER" ∧ con.key ≠ "CONNECTOR:MIXER" ∧ st' = st) := by
  unfold detectConnector at h
  split at h
  next hsp =>
    split at h
    · cases h
    next v hv =>
      cases h
      exact Or.inl ⟨v, hsp, hv, rfl⟩
  next hsp =>
    split at h
    next hmx =>
      split at h
      · cases h
      next v hv =>
        cases h
        exact Or.inr (Or.inl ⟨v, hmx, hv, rfl⟩)
    next hmx =>
      cases h
      exact Or.inr (Or.inr ⟨hsp, hmx, rfl⟩)

/-- When no splitter records the branch as its first branch and no mixer
records it as its last branch, the connector scan makes no write: it only
walks the slots and returns the document unchanged. -/
theorem scanSide_nomatch (clIdx branchIdx loopIdx : Nat) (inFl? outFl? : Option String)
    (fluid : String) (fuel : Nat) :
    ∀ (i : Nat) (st : Option (Val × Bool)) (idf : Idf) (out : Idf × Option (Val × Bool)),
      scanSide clIdx branchIdx loopIdx inFl? outFl? fluid fuel i st idf = .ok out →
      (∀ conIdx con, getObj? idf conIdx = some con →
        (con.key = "CONNECTOR:SPLITTER" →
          ∀ bv, con.getVal "Inlet_Branch_Name" = some bv →
            ∀ bobj, getObj? idf branchIdx = some bobj → bv ≠ Val.str bobj.name) ∧
        (con.key = "CONNECTOR:MIXER" →
          ∀ bv, con.getVal "Outlet_Branch_Name" = some bv →
            ∀ bobj, getObj? idf branchIdx = some bobj → bv ≠ Val.str bobj.name)) →
      (∀ v isf, st = some (v, isf) →
        ∀ bobj, getObj? idf branchIdx = some bobj → v ≠ Val.str bobj.name) →
      out.1 = idf ∧
      (∀ v isf, out.2 = some (v, isf) →
        ∀ bobj, getObj? idf branchIdx = some bobj → v ≠ Val.str bobj.name) := by
  induction fuel with
  | zero =>
    intro i st idf out h hcon hst
    simp only [scanSide] at h
    cases h
    exact ⟨rfl, hst⟩
  | succ fuel ihf =>
    intro i st idf out h hcon hst
    simp only [scanSide] at h
    split at h
    · cases h
    next cl hcl =>
      split at h
      · cases h
        exact ⟨rfl, hst⟩
      · cases h
      next ct hct =>
        split at h
        · cases h
          exact ⟨rfl, hst⟩
        · split at h
          next cn hcn =>
            split at h
            · cases h
            next conIdx hci =>
              split at h
              · cases h
              next con hconGet =>
                split at h
                · cases h
                · cases h
                next v isf hdet =>
                  split at h
                  · cases h
                  next b hbGet =>
                    split at h
                    next hveq =>
                      exfalso
                      rcases detectConnector_ok idf con st (some (v, isf)) hdet with
                        ⟨v2, hk, hv2, hst'⟩ | ⟨v2, hk, hv2, hst'⟩ | ⟨hk1, hk2, hst'⟩
                      · cases hst'
                        exact (hcon conIdx con hconGet).1 hk v hv2 b hbGet hveq
                      · cases hst'
                        exact (hcon conIdx con hconGet).2 hk v hv2 b hbGet hveq
                      · exact hst v isf hst'.symm b hbGet hveq
                    next hvne =>
                      refine ihf (i + 1) (some (v, isf)) idf out h hcon ?_
                      intro v1 isf1 hsome bobj hbobj
                      cases hsome
                      rcases detectConnector_ok idf con st (some (v, isf)) hdet with
                        ⟨v2, hk, hv2, hst'⟩ | ⟨v2, hk, hv2, hst'⟩ | ⟨hk1, hk2, hst'⟩
                      · cases hst'
                        exact (hcon conIdx con hconGet).1 hk v hv2 bobj hbobj
                      · cases hst'
                        exact (hcon conIdx con hconGet).2 hk v hv2 bobj hbobj
                      · exact hst v isf hst'.symm bobj hbobj
          next hcn => cases h

theorem componentsintobranch_frame (idf : Idf) (bi : Nat)
    (comps : List (Nat × Option String)) (fluid : String) (idf' : Idf)
    (h : componentsintobranch idf bi comps fluid = .ok idf') (j : Nat) (hj : j ≠ bi) :
    getObj? idf' j = getObj? idf j := by
  simp only [componentsintobranch] at h
  split at h
  · cases h
  next b hb =>
    split at h
    next e he => cases h
    next slots hs =>
      split at h
      · cases h
      next b1 hb1 =>
        cases h
        unfold getObj?
        rw [List.get?_set_ne _ _ (fun he => hj he.symm),
          List.get?_set_ne _ _ (fun he => hj he.symm)]

theorem connectcomponents_frame (idf idf' : Idf) (comps : List (Nat × Option String))
    (fluid : String) (h : connectcomponents idf comps fluid = .ok idf') (j : Nat)
    (hj : j ∉ comps.map (fun p => p.1)) :
    getObj? idf' j = getObj? idf j := by
  cases comps with
  | nil =>
    simp only [connectcomponents, connectAdj] at h
    cases h
    rfl
  | cons c1 cs =>
    cases cs with
    | nil =>
      obtain ⟨ci, cn⟩ := c1
      have hjc : j ≠ ci := by
        intro he
        exact hj (by simp [he])
      simp only [connectcomponents] at h
      split at h
      next e he => cases h
      next idf1 hinit =>
        split at h
        · cases h
        next o ho =>
          split at h
          · cases h
          next oname honame =>
            split at h
            next s hv =>
              cases h
              rw [getObj?_setObjVal_ne idf1 ci j oname _ hjc]
              exact (initinletoutlet_ok_props idf ci cn idf1 hinit).1 j hjc
            next hv => cases h
    | cons c2 cs2 =>
      have hadj : connectAdj idf ((c1 :: c2 :: cs2).zip (c2 :: cs2)) fluid = .ok idf' := h
      have hz1 : j ∉ ((c1 :: c2 :: cs2).zip (c2 :: cs2)).map (fun p => p.1.1) := by
        intro hmem
        simp only [List.mem_map] at hmem
        obtain ⟨p, hp, hpe⟩ := hmem
        have hm := (List.of_mem_zip hp).1
        exact hj (List.mem_map.mpr ⟨p.1, hm, hpe⟩)
      have hz2 : j ∉ ((c1 :: c2 :: cs2).zip (c2 :: cs2)).map (fun p => p.2.1) := by
        intro hmem
        simp only [List.mem_map] at hmem
        obtain ⟨p, hp, hpe⟩ := hmem
        have hm := (List.of_mem_zip hp).2
        have hm2 : p.2 ∈ c1 :: c2 :: cs2 := List.mem_cons_of_mem c1 hm
        exact hj (List.mem_map.mpr ⟨p.2, hm2, hpe⟩)
      have hz1' : j ∉ ((c1 :: c2 :: cs2).zip ((c1 :: c2 :: cs2).tail)).map (fun p => p.1.1) :=
        hz1
      have hz2' : j ∉ ((c1 :: c2 :: cs2).zip ((c1 :: c2 :: cs2).tail)).map (fun p => p.2.1) :=
        hz2
      exact (connectAdj_preserve _ idf idf' fluid hadj).2.2.2 j hz1' hz2'

theorem demandPhase_nomatch (idf4 : Idf) (loopIdx branchIdx : Nat) (flnames : List String)
    (fluid : String) (st4 : Option (Val × Bool)) (idf' : Idf)
    (h : demandPhase idf4 loopIdx branchIdx flnames fluid st4 = .ok idf')
    (hcon : ∀ conIdx con, getObj? idf4 conIdx = some con →
      (con.key = "CONNECTOR:SPLITTER" →
        ∀ bv, con.getVal "Inlet_Branch_Name" = some bv →
          ∀ bobj, getObj? idf4 branchIdx = some bobj → bv ≠ Val.str bobj.name) ∧
      (con.key = "CONNECTOR:MIXER" →
        ∀ bv, con.getVal "Outlet_Branch_Name" = some bv →
          ∀ bobj, getObj? idf4 branchIdx = some bobj → bv ≠ Val.str bobj.name))
    (hst : ∀ v isf, st4 = some (v, isf) →
      ∀ bobj, getObj? idf4 branchIdx = some bobj → v ≠ Val.str bobj.name) :
    idf' = renamenodes idf4 "node" := by
  unfold demandPhase at h
  split at h
  · cases h
  next fl7 hfl7 =>
    split at h
    next dcl hdcl =>
      split at h
      · cases h
      next dclIdx hdclIdx =>
        split at h
        next e hsc2 => cases h
        next idf5 st5 hsc2 =>
          obtain ⟨hid5, -⟩ := scanSide_nomatch dclIdx branchIdx loopIdx
            (flnames.get? 4) (flnames.get? 5) fluid 99999 1 st4 idf4 (idf5, st5)
            hsc2 hcon hst
          simp only at hid5
          subst hid5
          cases h
          rfl
    next hdcl => cases h

/-- C5 (amended): calling the module-level `replacebranch` on a branch that
is not the recorded first branch of any splitter and not the recorded last
branch of any mixer does nothing beyond chaining, branch rewriting and the
two rename propagations: the final document is exactly the twice-renamed
pipeline state, and every plain field binding of every object other than
the branch and the listed components — in particular the loop object's
global side inlet and outlet node fields — whose value is never mapped to
a different identifier by either staged rename table is unchanged. -/
theorem replacebranch_nonboundary_frame (idf : Idf) (loopIdx : Nat)
    (loopfields : List String) (branchIdx : Nat) (comps : List (Nat × Option String))
    (fluid : String) (idf' idf1 idf2 : Idf)
    (h : replacebranch idf loopIdx loopfields branchIdx comps fluid = .ok idf')
    (h1 : connectcomponents idf comps fluid = .ok idf1)
    (h2 : componentsintobranch idf1 branchIdx comps fluid = .ok idf2)
    (hnb : ∀ con ∈ renamenodes idf2 "node",
      (con.key = "CONNECTOR:SPLITTER" →
        ∀ bobj ∈ (getObj? (renamenodes idf2 "node") branchIdx).toList,
          con.getVal "Inlet_Branch_Name" ≠ some (Val.str bobj.name)) ∧
      (con.key = "CONNECTOR:MIXER" →
        ∀ bobj ∈ (getObj? (renamenodes idf2 "node") branchIdx).toList,
          con.getVal "Outlet_Branch_Name" ≠ some (Val.str bobj.name))) :
    idf' = renamenodes (renamenodes idf2 "node") "node" ∧
    (∀ j fn v, j ∉ comps.map (fun p => p.1) → j ≠ branchIdx →
      fieldAt idf j fn = some (.str v) →
      (∀ n, lookupLast (collectRenameds idf2) v = some n → n = v) →
      (∀ n, lookupLast (collectRenameds (renamenodes idf2 "node")) v = some n → n = v) →
      fieldAt idf' j fn = some (.str v)) := by
  have hcon3 : ∀ conIdx con, getObj? (renamenodes idf2 "node") conIdx = some con →
      (con.key = "CONNECTOR:SPLITTER" →
        ∀ bv, con.getVal "Inlet_Branch_Name" = some bv →
          ∀ bobj, getObj? (renamenodes idf2 "node") branchIdx = some bobj →
            bv ≠ Val.str bobj.name) ∧
      (con.key = "CONNECTOR:MIXER" →
        ∀ bv, con.getVal "Outlet_Branch_Name" = some bv →
          ∀ bobj, getObj? (renamenodes idf2 "node") branchIdx = some bobj →
            bv ≠ Val.str bobj.name) := by
    intro conIdx con hget
    obtain ⟨hs, hm⟩ := hnb con (List.get?_mem hget)
    refine ⟨?_, ?_⟩
    · intro hk bv hbv bobj hbobj heq
      exact hs hk bobj (by simp [hbobj]) (by rw [hbv, heq])
    · intro hk bv hbv bobj hbobj heq
      exact hm hk bobj (by simp [hbobj]) (by rw [hbv, heq])
  have hkey : idf' = renamenodes (renamenodes idf2 "node") "node" := by
    simp only [replacebranch, h1, h2] at h
    split at h
    next e hscl => cases h
    next scl hscl =>
      split at h
      · cases h
      next clIdx hclIdx =>
        split at h
        next e hsc1 => cases h
        next idf4 st4 hsc1 =>
          obtain ⟨hid4, hst4⟩ :=
            scanSide_nomatch clIdx branchIdx loopIdx
              ((loopfields.map underscore).get? 0) ((loopfields.map underscore).get? 1)
              fluid 99999 1 none (renamenodes idf2 "node") (idf4, st4) hsc1 hcon3
              (fun v isf hv => by cases hv)
          simp only at hid4
          subst hid4
          by_cases hw : strToUpper fluid = "WATER"
          · rw [if_pos hw] at h
            exact demandPhase_nomatch (renamenodes idf2 "node") loopIdx branchIdx
              (loopfields.map underscore) fluid st4 idf' h hcon3 hst4
          · rw [if_neg hw] at h
            cases h
            rfl
  refine ⟨hkey, ?_⟩
  intro j fn v hjc hjb hv hl2 hl3
  have hv1 : fieldAt idf1 j fn = some (.str v) := by
    unfold fieldAt
    rw [connectcomponents_frame idf idf1 comps fluid h1 j hjc]
    unfold fieldAt at hv
    exact hv
  have hv2 : fieldAt idf2 j fn = some (.str v) := by
    unfold fieldAt
    rw [componentsintobranch_frame idf1 branchIdx comps fluid idf2 h2 j hjb]
    unfold fieldAt at hv1
    exact hv1
  rw [hkey]
  exact renamenodes_str_preserved (renamenodes idf2 "node") "node" j fn v
    (renamenodes_str_preserved idf2 "node" j fn v hv2 hl2) hl3

theorem zip_tail_mem (l : List (Nat × Option String)) :
    ∀ (i : Nat) (a b : Nat × Option String), l.get? i = some a → l.get? (i + 1) = some b →
      (a, b) ∈ l.zip l.tail := by
  induction l with
  | nil =>
    intro i a b ha hb
    simp at ha
  | cons x xs ih =>
    intro i a b ha hb
    cases i with
    | zero =>
      simp only [List.get?] at ha hb
      cases ha
      cases xs with
      | nil => simp at hb
      | cons y ys =>
        simp only [List.get?] at hb
        cases hb
        simp only [List.tail_cons, List.zip_cons_cons]
        exact List.mem_cons_self _ _
    | succ i1 =>
      simp only [List.get?] at ha hb
      have hmem := ih i1 a b ha hb
      cases xs with
      | nil => simp at ha
      | cons y ys =>
        simp only [List.tail_cons, List.zip_cons_cons]
        simp only [List.tail_cons] at hmem
        exact List.mem_cons_of_mem _ hmem

/-- C1: for every component list of length at least two accepted by
`connectcomponents`, every adjacent pair (A, B) ends with A's resolved
outlet field and B's resolved inlet field staged to one shared identifier
`"{A.Name}_{B.Name}_node"`, so the two fields' resolved values are equal. -/
theorem connectcomponents_adjacent_shared_node (idf idf' : Idf)
    (comps : List (Nat × Option String)) (fluid : String) (i : Nat)
    (a b : Nat × Option String)
    (hrun : connectcomponents idf comps fluid = .ok idf')
    (hlen : 2 ≤ comps.length)
    (ha : comps.get? i = some a) (hb : comps.get? (i + 1) = some b) :
    ∃ ao bo oname iname sa sb,
      getObj? idf a.1 = some ao ∧ getObj? idf b.1 = some bo ∧
      getnodefieldname ao "Outlet_Node_Name" fluid (a.2.getD "") = some oname ∧
      getnodefieldname bo "Inlet_Node_Name" fluid "" = some iname ∧
      fieldAt idf' a.1 oname = some (.pair sa (ao.name ++ "_" ++ bo.name ++ "_node")) ∧
      fieldAt idf' b.1 iname = some (.pair sb (ao.name ++ "_" ++ bo.name ++ "_node")) ∧
      (fieldAt idf' a.1 oname).map Val.resolved
        = (fieldAt idf' b.1 iname).map Val.resolved := by
  have hzip : (a, b) ∈ comps.zip comps.tail := zip_tail_mem comps i a b ha hb
  have hadj : connectAdj idf (comps.zip comps.tail) fluid = .ok idf' := by
    cases comps with
    | nil => simp at hlen
    | cons c1 cs =>
      cases cs with
      | nil => simp at hlen
      | cons c2 cs2 => exact hrun
  obtain ⟨ao, bo, oname, iname, sa, sb, h1, h2, h3, h4, h5, h6⟩ :=
    connectAdj_adjacent (comps.zip comps.tail) idf idf' fluid hadj (a, b) hzip
  refine ⟨ao, bo, oname, iname, sa, sb, h1, h2, h3, h4, h5, h6, ?_⟩
  rw [h5, h6]
  rfl

theorem connectcomponents_adjacent_shared_node_witness :
    (fieldAt chainOut 0 "Outlet_Node_Name").map Val.resolved
      = (fieldAt chainOut 1 "Inlet_Node_Name").map Val.resolved := by
  obtain ⟨ao, bo, oname, iname, sa, sb, h1, h2, h3, h4, h5, h6, h7⟩ :=
    connectcomponents_adjacent_shared_node chainIdf chainOut chainComps "" 0
      (0, none) (1, none) (by decide) (by decide) (by decide) (by decide)
  rw [show getObj? chainIdf 0 = some (pipeObj "p1" "p1_in" "") from rfl] at h1
  cases h1
  rw [show getObj? chainIdf 1 = some (pipeObj "p2" "" "p2_out") from rfl] at h2
  cases h2
  rw [show getnodefieldname (pipeObj "p1" "p1_in" "") "Outlet_Node_Name" ""
      ((none : Option String).getD "") = some "Outlet_Node_Name" from by decide] at h3
  cases h3
  rw [show getnodefieldname (pipeObj "p2" "" "p2_out") "Inlet_Node_Name" "" ""
      = some "Inlet_Node_Name" from by decide] at h4
  cases h4
  exact h7

theorem componentsintobranch_slots_witness :
    branchDemoSlots.length
      = 5 * ([((1 : Nat), (none : Option String))] : List (Nat × Option String)).length :=
  (componentsintobranch_slots branchDemoIdf 0 [(1, none)] ""
      (resOk (componentsintobranch branchDemoIdf 0 [(1, none)] "")) branchDemoBranch
      branchDemoSlots (by decide) (by decide) (by decide)).2.2.1

/-- C9: when the fluid argument is omitted (Python defaults it to the empty
string), empty, or anything other than WATER or AIR case-insensitively, the
module-level `replacebranch` raises an unhandled `NameError` — the local
`supplyconlistname` is never assigned — after the branch has already been
chained, rewritten and the staged renames propagated; such a call never
returns a branch. -/
theorem replacebranch_bad_fluid_nameerror (idf : Idf) (loopIdx : Nat)
    (loopfields : List String) (branchIdx : Nat) (comps : List (Nat × Option String))
    (fluid : String) (idf1 idf2 : Idf)
    (hw : strToUpper fluid ≠ "WATER") (ha : strToUpper fluid ≠ "AIR")
    (h1 : connectcomponents idf comps fluid = .ok idf1)
    (h2 : componentsintobranch idf1 branchIdx comps fluid = .ok idf2) :
    replacebranch idf loopIdx loopfields branchIdx comps fluid
      = .error (.nameErr, renamenodes idf2 "node") := by
  simp only [replacebranch, h1, h2]
  simp [sclName, hw, ha]

theorem replacebranch_bad_fluid_nameerror_witness :
    replacebranch [branchObj "b"] 0 plantloopfields 0 [] ""
      = .error (.nameErr,
          renamenodes (resOk (componentsintobranch [branchObj "b"] 0 [] "")) "node") :=
  replacebranch_bad_fluid_nameerror [branchObj "b"] 0 plantloopfields 0 [] ""
    [branchObj "b"] (resOk (componentsintobranch [branchObj "b"] 0 [] ""))
    (by decide) (by decide) (by decide) (by decide)

theorem count_flatMap_zero (l : List String) (seg : List String) (k : String)
    (h : seg.count k = 0) : (l.flatMap (fun _ => seg)).count k = 0 := by
  induction l with
  | nil => rfl
  | cons x xs ih => simp [List.flatMap_cons, List.count_append, h, ih]

theorem zoneSplitterEntries_length (zones : List String) :
    ∀ i, (zoneSplitterEntries i zones).length = zones.length := by
  induction zones with
  | nil => intro i; rfl
  | cons z zs ih => intro i; simp [zoneSplitterEntries, ih]

theorem zoneMixerEntries_length (zones : List String) :
    ∀ i, (zoneMixerEntries i zones).length = zones.length := by
  induction zones with
  | nil => intro i; rfl
  | cons z zs ih => intro i; simp [zoneMixerEntries, ih]

theorem zoneSplitterEntries_get? (zones : List String) :
    ∀ i k z, zones.get? k = some z →
      (zoneSplitterEntries i zones).get? k
        = some ("Outlet_" ++ toString (i + k + 1) ++ "_Node_Name", z ++ " Inlet Node") := by
  induction zones with
  | nil =>
    intro i k z h
    simp at h
  | cons y ys ih =>
    intro i k z h
    cases k with
    | zero =>
      simp only [List.get?] at h
      cases h
      rfl
    | succ k1 =>
      simp only [List.get?] at h
      have h2 := ih (i + 1) k1 z h
      simp only [zoneSplitterEntries, List.get?]
      rw [h2]
      have : i + 1 + k1 + 1 = i + (k1 + 1) + 1 := by omega
      rw [this]

theorem zoneMixerEntries_get? (zones : List String) :
    ∀ i k z, zones.get? k = some z →
      (zoneMixerEntries i zones).get? k
        = some ("Inlet_" ++ toString (i + k + 1) ++ "_Node_Name", z ++ " Outlet Node") := by
  induction zones with
  | nil =>
    intro i k z h
    simp at h
  | cons y ys ih =>
    intro i k z h
    cases k with
    | zero =>
      simp only [List.get?] at h
      cases h
      rfl
    | succ k1 =>
      simp only [List.get?] at h
      have h2 := ih (i + 1) k1 z h
      simp only [zoneMixerEntries, List.get?]
      rw [h2]
      have : i + 1 + k1 + 1 = i + (k1 + 1) + 1 := by omega
      rw [this]

/-- C4: every Plant or Condenser loop build creates exactly two BRANCHLIST
and two CONNECTORLIST objects; an Air loop build creates exactly one of
each, and its zone splitter and zone mixer carry exactly one per-zone node
entry per zone of the demand topology, in order. -/
theorem loop_shape_invariants (sloop dloop : SideSpec) :
    (waterLoopCreatedKeys "PLANTLOOP" sloop dloop).count "BRANCHLIST" = 2 ∧
    (waterLoopCreatedKeys "PLANTLOOP" sloop dloop).count "CONNECTORLIST" = 2 ∧
    (waterLoopCreatedKeys "CONDENSERLOOP" sloop dloop).count "BRANCHLIST" = 2 ∧
    (waterLoopCreatedKeys "CONDENSERLOOP" sloop dloop).count "CONNECTORLIST" = 2 ∧
    (airLoopCreatedKeys sloop dloop).count "BRANCHLIST" = 1 ∧
    (airLoopCreatedKeys sloop dloop).count "CONNECTORLIST" = 1 ∧
    (zoneSplitterEntries 0 dloop.mid).length = dloop.mid.length ∧
    (zoneMixerEntries 0 dloop.mid).length = dloop.mid.length ∧
    (∀ k z, dloop.mid.get? k = some z →
      (zoneSplitterEntries 0 dloop.mid).get? k
        = some ("Outlet_" ++ toString (k + 1) ++ "_Node_Name", z ++ " Inlet Node")) ∧
    (∀ k z, dloop.mid.get? k = some z →
      (zoneMixerEntries 0 dloop.mid).get? k
        = some ("Inlet_" ++ toString (k + 1) ++ "_Node_Name", z ++ " Outlet Node")) := by
  have hsb := count_flatMap_zero (sideNames sloop) pipebranchKeys "BRANCHLIST" (by decide)
  have hdb := count_flatMap_zero (sideNames dloop) pipebranchKeys "BRANCHLIST" (by decide)
  have hsc := count_flatMap_zero (sideNames sloop) pipebranchKeys "CONNECTORLIST" (by decide)
  have hdc := count_flatMap_zero (sideNames dloop) pipebranchKeys "CONNECTORLIST" (by decide)
  have hz1b := count_flatMap_zero dloop.mid ["ZONEHVAC:EQUIPMENTCONNECTIONS"] "BRANCHLIST"
    (by decide)
  have hz2b := count_flatMap_zero dloop.mid ["ZONEHVAC:EQUIPMENTLIST"] "BRANCHLIST" (by decide)
  have hz3b := count_flatMap_zero dloop.mid ["AIRTERMINAL:SINGLEDUCT:UNCONTROLLED"] "BRANCHLIST"
    (by decide)
  have hz1c := count_flatMap_zero dloop.mid ["ZONEHVAC:EQUIPMENTCONNECTIONS"] "CONNECTORLIST"
    (by decide)
  have hz2c := count_flatMap_zero dloop.mid ["ZONEHVAC:EQUIPMENTLIST"] "CONNECTORLIST"
    (by decide)
  have hz3c := count_flatMap_zero dloop.mid ["AIRTERMINAL:SINGLEDUCT:UNCONTROLLED"]
    "CONNECTORLIST" (by decide)
  refine ⟨?_, ?_, ?_, ?_, ?_, ?_, ?_, ?_, ?_, ?_⟩
  · simp [waterLoopCreatedKeys, List.count_append, hsb, hdb]
  · simp [waterLoopCreatedKeys, List.count_append, hsc, hdc]
  · simp [waterLoopCreatedKeys, List.count_append, hsb, hdb]
  · simp [waterLoopCreatedKeys, List.count_append, hsc, hdc]
  · simp [airLoopCreatedKeys, List.count_append, hsb, hz1b, hz2b, hz3b]
  · simp [airLoopCreatedKeys, List.count_append, hsc, hz1c, hz2c, hz3c]
  · exact zoneSplitterEntries_length dloop.mid 0
  · exact zoneMixerEntries_length dloop.mid 0
  · intro k z h
    simpa using zoneSplitterEntries_get? dloop.mid 0 k z h
  · intro k z h
    simpa using zoneMixerEntries_get? dloop.mid 0 k z h

theorem loop_shape_invariants_witness :
    (zoneSplitterEntries 0 ["z1", "z2"]).get? 1
      = some ("Outlet_" ++ toString (1 + 1) ++ "_Node_Name", "z2" ++ " Inlet Node") :=
  (loop_shape_invariants ⟨"s_in", ["boiler"], "s_out"⟩
      ⟨"d_in", ["z1", "z2"], "d_out"⟩).2.2.2.2.2.2.2.2.1 1 "z2" (by decide)

/-- C6 (code bug): a component with one inlet-node field and two same-suffix
outlet-node fields and no port hint does make `initinletoutlet` raise
`WhichLoopError`, but the candidate report accompanying the raise is built
from the inlet field list (the single tag `FC_`), not from the two
ambiguous outlet field names the claim requires to be surfaced. -/
theorem initinletoutlet_ambiguous_outlet_misreport :
    initinletoutlet fancoilIdf 0 none false
      = .error (.whichLoop "ZONEHVAC:FOURPIPEFANCOIL" "FC1" ["FC_"], fancoilIdf) ∧
    getfieldnamesendswith fancoilObj "Outlet_Node_Name"
      = ["Air_Outlet_Node_Name", "Water_Outlet_Node_Name"] ∧
    "Air_Outlet_Node_Name" ∉ ["FC_"] ∧ "Water_Outlet_Node_Name" ∉ ["FC_"] := by
  refine ⟨by decide, by decide, by decide, by decide⟩


/-- C5 counterexample: a replace on a branch that is neither any
splitter's recorded inlet branch nor any mixer's recorded outlet branch
(the non-boundary case of the claim) still rewrites the loop object's
global Plant Side Inlet Node Name: a chained component's stale outlet
value equalled that node name, so the staged rename table maps it to the
new shared node and the propagation pass rewrites the loop field. -/
theorem replacebranch_collision_rewrites_loop_inlet :
    replacebranch collideDoc 0 plantloopfields 1 collideComps "WATER"
      = Except.ok collideOut ∧
    (∀ con ∈ renamenodes collideIdf2 "node",
      (con.key = "CONNECTOR:SPLITTER" →
        ∀ bobj ∈ (getObj? (renamenodes collideIdf2 "node") 1).toList,
          con.getVal "Inlet_Branch_Name" ≠ some (Val.str bobj.name)) ∧
      (con.key = "CONNECTOR:MIXER" →
        ∀ bobj ∈ (getObj? (renamenodes collideIdf2 "node") 1).toList,
          con.getVal "Outlet_Branch_Name" ≠ some (Val.str bobj.name))) ∧
    fieldAt collideDoc 0 "Plant_Side_Inlet_Node_Name" = some (Val.str "LOOPIN") ∧
    fieldAt collideOut 0 "Plant_Side_Inlet_Node_Name" = some (Val.str "c1_c2_node") ∧
    lookupLast (collectRenameds collideIdf2) "LOOPIN" = some "c1_c2_node" := by
  decide

/-- C5 witness: on `frameDoc` (same layout, no value collision) the
amended frame theorem applies and the loop object's Plant Side Inlet
Node Name survives `replacebranch` unchanged. -/
theorem replacebranch_nonboundary_frame_witness :
    fieldAt frameOut 0 "Plant_Side_Inlet_Node_Name" = some (Val.str "LOOPIN") := by
  have h := replacebranch_nonboundary_frame frameDoc 0 plantloopfields 1 collideComps
    "WATER" frameOut frameIdf1 frameIdf2 (by decide) (by decide) (by decide) (by decide)
  refine h.2 0 "Plant_Side_Inlet_Node_Name" "LOOPIN" (by decide) (by decide) (by decide)
    ?_ ?_
  · intro n hn
    rw [show lookupLast (collectRenameds frameIdf2) "LOOPIN" = none from by decide] at hn
    cases hn
  · intro n hn
    rw [show lookupLast (collectRenameds (renamenodes frameIdf2 "node")) "LOOPIN"
      = none from by decide] at hn
    cases hn


theorem fldAt_setObjVal_self (idf : Idf) (i : Nat) (fn : String) (v : Val) :
    fldAt? (setObjVal idf i fn v) i fn
      = (fldAt? idf i fn).map (fun f => { f with val := v }) := by
  unfold fldAt?
  rw [getObj?_setObjVal_self]
  cases hg : getObj? idf i with
  | none => rfl
  | some o =>
    simp only [Option.map_some', Option.some_bind]
    unfold Obj.setVal
    show (o.flds.map _).find? _ = _
    rw [find?_name_map o.flds _ (setVal_name_pres fn v) fn]
    cases hf : o.flds.find? (fun f => f.name == fn) with
    | none => simp
    | some f0 =>
      have hname : f0.name = fn := by simpa using List.find?_some hf
      simp [hname]

theorem scanSide_step_rebind (clIdx branchIdx loopIdx : Nat) (inFl? outFl? : Option String)
    (fluid : String) (fuel i : Nat) (st : Option (Val × Bool)) (idf : Idf)
    (cl : Obj) (hcl : getObj? idf clIdx = some cl)
    (ct cn : String)
    (hct : cl.getVal ("Connector_" ++ toString i ++ "_Object_Type") = some (.str ct))
    (hctnb : isBlankStr ct = false)
    (hcn : cl.getVal ("Connector_" ++ toString i ++ "_Name") = some (.str cn))
    (conIdx : Nat) (hres : getobjectIdx idf (strToUpper ct) cn = some conIdx)
    (con : Obj) (hcon : getObj? idf conIdx = some con)
    (isf : Bool) (b : Obj) (hb : getObj? idf branchIdx = some b)
    (hdet : detectConnector idf con st = .ok (some (Val.str b.name, isf)))
    (idf2 : Idf) (hreb : rebindEnd idf branchIdx loopIdx inFl? outFl? fluid isf = .ok idf2) :
    scanSide clIdx branchIdx loopIdx inFl? outFl? fluid (fuel + 1) i st idf
      = scanSide clIdx branchIdx loopIdx inFl? outFl? fluid fuel (i + 1)
          (some (Val.str b.name, isf)) idf2 := by
  simp [scanSide, hcl, hct, hctnb, hcn, hres, hcon, hdet, hb, hreb]

theorem scanSide_step_norebind (clIdx branchIdx loopIdx : Nat) (inFl? outFl? : Option String)
    (fluid : String) (fuel i : Nat) (st : Option (Val × Bool)) (idf : Idf)
    (cl : Obj) (hcl : getObj? idf clIdx = some cl)
    (ct cn : String)
    (hct : cl.getVal ("Connector_" ++ toString i ++ "_Object_Type") = some (.str ct))
    (hctnb : isBlankStr ct = false)
    (hcn : cl.getVal ("Connector_" ++ toString i ++ "_Name") = some (.str cn))
    (conIdx : Nat) (hres : getobjectIdx idf (strToUpper ct) cn = some conIdx)
    (con : Obj) (hcon : getObj? idf conIdx = some con)
    (v : Val) (isf : Bool) (hdet : detectConnector idf con st = .ok (some (v, isf)))
    (b : Obj) (hb : getObj? idf branchIdx = some b)
    (hnm : v ≠ Val.str b.name) :
    scanSide clIdx branchIdx loopIdx inFl? outFl? fluid (fuel + 1) i st idf
      = scanSide clIdx branchIdx loopIdx inFl? outFl? fluid fuel (i + 1)
          (some (v, isf)) idf := by
  simp [scanSide, hcl, hct, hctnb, hcn, hres, hcon, hdet, hb, hnm]

theorem scanSide_stop (clIdx branchIdx loopIdx : Nat) (inFl? outFl? : Option String)
    (fluid : String) (fuel i : Nat) (st : Option (Val × Bool)) (idf : Idf)
    (cl : Obj) (hcl : getObj? idf clIdx = some cl)
    (hnone : cl.getVal ("Connector_" ++ toString i ++ "_Object_Type") = none) :
    scanSide clIdx branchIdx loopIdx inFl? outFl? fluid (fuel + 1) i st idf
      = .ok (idf, st) := by
  simp [scanSide, hcl, hnone]

theorem rebindEnd_first (idf : Idf) (bi loopIdx : Nat) (inFl? outFl? : Option String)
    (fluid : String)
    (c0 : Nat) (rest : List Nat) (hcomps : getbranchcomponents idf bi = some (c0 :: rest))
    (co : Obj) (hc0 : getObj? idf c0 = some co)
    (nodefn : String) (hnfn : getnodefieldname co "Inlet_Node_Name" fluid "" = some nodefn)
    (inFl : String) (hinFl : inFl? = some inFl)
    (v0 : String) (hv0 : fieldAt idf loopIdx inFl = some (.str v0)) :
    rebindEnd idf bi loopIdx inFl? outFl? fluid true = stageField idf c0 nodefn v0 := by
  simp [rebindEnd, hcomps, hc0, hnfn, hinFl, hv0]

theorem replacebranch_first_rebind
    (idf : Idf) (loopIdx : Nat) (loopfields : List String) (branchIdx : Nat)
    (comps : List (Nat × Option String)) (fluid : String)
    (idf' idf1 idf2 idf3 idf3s : Idf)
    (h : replacebranch idf loopIdx loopfields branchIdx comps fluid = .ok idf')
    (h1 : connectcomponents idf comps fluid = .ok idf1)
    (h2 : componentsintobranch idf1 branchIdx comps fluid = .ok idf2)
    (hid3 : renamenodes idf2 "node" = idf3)
    (hwater : strToUpper fluid = "WATER")
    (fl3 : String) (hfl3 : (loopfields.map underscore).get? 3 = some fl3)
    (scl : String) (hscl : fieldAt idf3 loopIdx fl3 = some (.str scl))
    (clIdx : Nat) (hcl : getobjectIdx idf3 "CONNECTORLIST" scl = some clIdx)
    (cl : Obj) (hclobj : getObj? idf3 clIdx = some cl)
    (ct1 cn1 : String)
    (hs1t : cl.getVal ("Connector_" ++ toString 1 ++ "_Object_Type") = some (.str ct1))
    (hs1nb : isBlankStr ct1 = false)
    (hs1n : cl.getVal ("Connector_" ++ toString 1 ++ "_Name") = some (.str cn1))
    (spIdx : Nat) (hres1 : getobjectIdx idf3 (strToUpper ct1) cn1 = some spIdx)
    (sp : Obj) (hsp : getObj? idf3 spIdx = some sp)
    (b : Obj) (hb : getObj? idf3 branchIdx = some b)
    (hdet1 : detectConnector idf3 sp none = .ok (some (Val.str b.name, true)))
    (c0 : Nat) (rest : List Nat)
    (hcomps : getbranchcomponents idf3 branchIdx = some (c0 :: rest))
    (co : Obj) (hc0 : getObj? idf3 c0 = some co)
    (nodefn : String) (hnfn : getnodefieldname co "Inlet_Node_Name" fluid "" = some nodefn)
    (inFl : String) (hinFl : (loopfields.map underscore).get? 0 = some inFl)
    (v0 : String) (hv0 : fieldAt idf3 loopIdx inFl = some (.str v0))
    (hstage : stageField idf3 c0 nodefn v0 = .ok idf3s)
    (cl2 : Obj) (hclobj2 : getObj? idf3s clIdx = some cl2)
    (ct2 cn2 : String)
    (hs2t : cl2.getVal ("Connector_" ++ toString 2 ++ "_Object_Type") = some (.str ct2))
    (hs2nb : isBlankStr ct2 = false)
    (hs2n : cl2.getVal ("Connector_" ++ toString 2 ++ "_Name") = some (.str cn2))
    (mxIdx : Nat) (hres2 : getobjectIdx idf3s (strToUpper ct2) cn2 = some mxIdx)
    (mx : Obj) (hmx : getObj? idf3s mxIdx = some mx)
    (mv : Val) (misf : Bool)
    (hdet2 : detectConnector idf3s mx (some (Val.str b.name, true)) = .ok (some (mv, misf)))
    (b2 : Obj) (hb2 : getObj? idf3s branchIdx = some b2)
    (hnomatch : mv ≠ Val.str b2.name)
    (hs3 : cl2.getVal ("Connector_" ++ toString 3 ++ "_Object_Type") = none)
    (fl7 : String) (hfl7 : (loopfields.map underscore).get? 7 = some fl7)
    (dcl : String) (hdcl : fieldAt idf3s loopIdx fl7 = some (.str dcl))
    (dclIdx : Nat) (hdclIdx : getobjectIdx idf3s "CONNECTORLIST" dcl = some dclIdx)
    (dco : Obj) (hdco : getObj? idf3s dclIdx = some dco)
    (dct1 dcn1 : String)
    (hd1t : dco.getVal ("Connector_" ++ toString 1 ++ "_Object_Type") = some (.str dct1))
    (hd1nb : isBlankStr dct1 = false)
    (hd1n : dco.getVal ("Connector_" ++ toString 1 ++ "_Name") = some (.str dcn1))
    (dspIdx : Nat) (hdres1 : getobjectIdx idf3s (strToUpper dct1) dcn1 = some dspIdx)
    (dsp : Obj) (hdsp : getObj? idf3s dspIdx = some dsp)
    (dv1 : Val) (disf1 : Bool)
    (hddet1 : detectConnector idf3s dsp (some (mv, misf)) = .ok (some (dv1, disf1)))
    (hdno1 : dv1 ≠ Val.str b2.name)
    (dct2 dcn2 : String)
    (hd2t : dco.getVal ("Connector_" ++ toString 2 ++ "_Object_Type") = some (.str dct2))
    (hd2nb : isBlankStr dct2 = false)
    (hd2n : dco.getVal ("Connector_" ++ toString 2 ++ "_Name") = some (.str dcn2))
    (dmxIdx : Nat) (hdres2 : getobjectIdx idf3s (strToUpper dct2) dcn2 = some dmxIdx)
    (dmx : Obj) (hdmx : getObj? idf3s dmxIdx = some dmx)
    (dv2 : Val) (disf2 : Bool)
    (hddet2 : detectConnector idf3s dmx (some (dv1, disf1)) = .ok (some (dv2, disf2)))
    (hdno2 : dv2 ≠ Val.str b2.name)
    (hd3 : dco.getVal ("Connector_" ++ toString 3 ++ "_Object_Type") = none)
    (fd : Fld) (hfld : fldAt? idf3 c0 nodefn = some fd) (hfdt : fd.ftype = some "node")
    (hLself : ∀ n, lookupLast (collectRenameds idf3s) v0 = some n → n = v0)
    (hneq : loopIdx ≠ c0) :
    idf' = renamenodes idf3s "node" ∧
    fieldAt idf' c0 nodefn = some (.str v0) ∧
    fieldAt idf' loopIdx inFl = some (.str v0) := by
  have hreb : rebindEnd idf3 branchIdx loopIdx ((loopfields.map underscore).get? 0)
      ((loopfields.map underscore).get? 1) fluid true = .ok idf3s := by
    rw [rebindEnd_first idf3 branchIdx loopIdx _ _ fluid c0 rest hcomps co hc0
      nodefn hnfn inFl hinFl v0 hv0]
    exact hstage
  have hkey : idf' = renamenodes idf3s "node" := by
    simp only [replacebranch, h1, h2, hid3, sclName, hwater, reduceIte, hfl3, hscl, hcl] at h
    rw [show (99999 : Nat) = 99998 + 1 from rfl] at h
    rw [scanSide_step_rebind clIdx branchIdx loopIdx _ _ fluid 99998 1 none idf3
      cl hclobj ct1 cn1 hs1t hs1nb hs1n spIdx hres1 sp hsp true b hb hdet1
      idf3s hreb] at h
    rw [show (1 : Nat) + 1 = 2 from rfl, show (99998 : Nat) = 99997 + 1 from rfl] at h
    rw [scanSide_step_norebind clIdx branchIdx loopIdx _ _ fluid 99997 2
      (some (Val.str b.name, true)) idf3s cl2 hclobj2 ct2 cn2 hs2t hs2nb hs2n
      mxIdx hres2 mx hmx mv misf hdet2 b2 hb2 hnomatch] at h
    rw [show (2 : Nat) + 1 = 3 from rfl, show (99997 : Nat) = 99996 + 1 from rfl] at h
    rw [scanSide_stop clIdx branchIdx loopIdx _ _ fluid 99996 3
      (some (mv, misf)) idf3s cl2 hclobj2 hs3] at h
    simp only [demandPhase, hfl7, hdcl, hdclIdx] at h
    rw [show (99999 : Nat) = 99998 + 1 from rfl] at h
    rw [scanSide_step_norebind dclIdx branchIdx loopIdx _ _ fluid 99998 1
      (some (mv, misf)) idf3s dco hdco dct1 dcn1 hd1t hd1nb hd1n
      dspIdx hdres1 dsp hdsp dv1 disf1 hddet1 b2 hb2 hdno1] at h
    rw [show (1 : Nat) + 1 = 2 from rfl, show (99998 : Nat) = 99997 + 1 from rfl] at h
    rw [scanSide_step_norebind dclIdx branchIdx loopIdx _ _ fluid 99997 2
      (some (dv1, disf1)) idf3s dco hdco dct2 dcn2 hd2t hd2nb hd2n
      dmxIdx hdres2 dmx hdmx dv2 disf2 hddet2 b2 hb2 hdno2] at h
    rw [show (2 : Nat) + 1 = 3 from rfl, show (99997 : Nat) = 99996 + 1 from rfl] at h
    rw [scanSide_stop dclIdx branchIdx loopIdx _ _ fluid 99996 3
      (some (dv2, disf2)) idf3s dco hdco hd3] at h
    simp only at h
    exact (Except.ok.inj h).symm
  obtain ⟨s, hs, hset⟩ := stageField_ok_elim idf3 c0 nodefn v0 idf3s hstage
  have hpair : fldAt? idf3s c0 nodefn = some { fd with val := .pair s v0 } := by
    rw [hset, fldAt_setObjVal_self, hfld]
    rfl
  have hcomp : fieldAt (renamenodes idf3s "node") c0 nodefn = some (.str v0) :=
    renamenodes_pair_collapse idf3s "node" c0 nodefn _ hpair hfdt s v0 rfl
  have hloop3s : fieldAt idf3s loopIdx inFl = some (.str v0) := by
    rw [hset, fieldAt_setObjVal_ne idf3 c0 loopIdx nodefn inFl _ (Or.inl hneq)]
    exact hv0
  have hloop : fieldAt (renamenodes idf3s "node") loopIdx inFl = some (.str v0) :=
    renamenodes_str_preserved idf3s "node" loopIdx inFl v0 hloop3s hLself
  exact ⟨hkey, hkey ▸ hcomp, hkey ▸ hloop⟩

/-- C8: replacing the first branch of a supply side (the branch the supply
splitter records as its `Inlet_Branch_Name`) twice in succession with
equivalent component lists and the same fluid yields the same final
binding both times: after either call the branch's first component's
inlet-node field and the loop object's global side-inlet node field both
hold the loop's side-inlet identifier. -/
theorem replacebranch_first_branch_rebind_idempotent
    (idf : Idf) (loopIdx : Nat) (loopfields : List String) (branchIdx : Nat)
    (comps ycomps : List (Nat × Option String)) (fluid : String)
    (out1 out2 xdf1 xdf2 xdf3 xdf3s ydf1 ydf2 ydf3 ydf3s : Idf)
    (hwater : strToUpper fluid = "WATER")
    (fl3 : String) (hfl3 : (loopfields.map underscore).get? 3 = some fl3)
    (inFl : String) (hinFl : (loopfields.map underscore).get? 0 = some inFl)
    (fl7 : String) (hfl7 : (loopfields.map underscore).get? 7 = some fl7)
    (hA : replacebranch idf loopIdx loopfields branchIdx comps fluid = .ok out1)
    (hA1 : connectcomponents idf comps fluid = .ok xdf1)
    (hA2 : componentsintobranch xdf1 branchIdx comps fluid = .ok xdf2)
    (hAid3 : renamenodes xdf2 "node" = xdf3)
    (xscl : String) (hAscl : fieldAt xdf3 loopIdx fl3 = some (.str xscl))
    (xclIdx : Nat) (hAcl : getobjectIdx xdf3 "CONNECTORLIST" xscl = some xclIdx)
    (xcl : Obj) (hAclobj : getObj? xdf3 xclIdx = some xcl)
    (xct1 xcn1 : String)
    (hAs1t : xcl.getVal ("Connector_" ++ toString 1 ++ "_Object_Type") = some (.str xct1))
    (hAs1nb : isBlankStr xct1 = false)
    (hAs1n : xcl.getVal ("Connector_" ++ toString 1 ++ "_Name") = some (.str xcn1))
    (xspIdx : Nat) (hAres1 : getobjectIdx xdf3 (strToUpper xct1) xcn1 = some xspIdx)
    (xsp : Obj) (hAsp : getObj? xdf3 xspIdx = some xsp)
    (xb : Obj) (hAb : getObj? xdf3 branchIdx = some xb)
    (hAdet1 : detectConnector xdf3 xsp none = .ok (some (Val.str xb.name, true)))
    (xc0 : Nat) (xrest : List Nat)
    (hAcomps : getbranchcomponents xdf3 branchIdx = some (xc0 :: xrest))
    (xco : Obj) (hAc0 : getObj? xdf3 xc0 = some xco)
    (xnodefn : String)
    (hAnfn : getnodefieldname xco "Inlet_Node_Name" fluid "" = some xnodefn)
    (xv0 : String) (hAv0 : fieldAt xdf3 loopIdx inFl = some (.str xv0))
    (hAstage : stageField xdf3 xc0 xnodefn xv0 = .ok xdf3s)
    (xcl2 : Obj) (hAclobj2 : getObj? xdf3s xclIdx = some xcl2)
    (xct2 xcn2 : String)
    (hAs2t : xcl2.getVal ("Connector_" ++ toString 2 ++ "_Object_Type") = some (.str xct2))
    (hAs2nb : isBlankStr xct2 = false)
    (hAs2n : xcl2.getVal ("Connector_" ++ toString 2 ++ "_Name") = some (.str xcn2))
    (xmxIdx : Nat) (hAres2 : getobjectIdx xdf3s (strToUpper xct2) xcn2 = some xmxIdx)
    (xmx : Obj) (hAmx : getObj? xdf3s xmxIdx = some xmx)
    (xmv : Val) (xmisf : Bool)
    (hAdet2 : detectConnector xdf3s xmx (some (Val.str xb.name, true)) = .ok (some (xmv, xmisf)))
    (xb2 : Obj) (hAb2 : getObj? xdf3s branchIdx = some xb2)
    (hAnomatch : xmv ≠ Val.str xb2.name)
    (hAs3 : xcl2.getVal ("Connector_" ++ toString 3 ++ "_Object_Type") = none)
    (xdcl : String) (hAdcl : fieldAt xdf3s loopIdx fl7 = some (.str xdcl))
    (xdclIdx : Nat) (hAdclIdx : getobjectIdx xdf3s "CONNECTORLIST" xdcl = some xdclIdx)
    (xdco : Obj) (hAdco : getObj? xdf3s xdclIdx = some xdco)
    (xdct1 xdcn1 : String)
    (hAd1t : xdco.getVal ("Connector_" ++ toString 1 ++ "_Object_Type") = some (.str xdct1))
    (hAd1nb : isBlankStr xdct1 = false)
    (hAd1n : xdco.getVal ("Connector_" ++ toString 1 ++ "_Name") = some (.str xdcn1))
    (xdspIdx : Nat) (hAdres1 : getobjectIdx xdf3s (strToUpper xdct1) xdcn1 = some xdspIdx)
    (xdsp : Obj) (hAdsp : getObj? xdf3s xdspIdx = some xdsp)
    (xdv1 : Val) (xdisf1 : Bool)
    (hAddet1 : detectConnector xdf3s xdsp (some (xmv, xmisf)) = .ok (some (xdv1, xdisf1)))
    (hAdno1 : xdv1 ≠ Val.str xb2.name)
    (xdct2 xdcn2 : String)
    (hAd2t : xdco.getVal ("Connector_" ++ toString 2 ++ "_Object_Type") = some (.str xdct2))
    (hAd2nb : isBlankStr xdct2 = false)
    (hAd2n : xdco.getVal ("Connector_" ++ toString 2 ++ "_Name") = some (.str xdcn2))
    (xdmxIdx : Nat) (hAdres2 : getobjectIdx xdf3s (strToUpper xdct2) xdcn2 = some xdmxIdx)
    (xdmx : Obj) (hAdmx : getObj? xdf3s xdmxIdx = some xdmx)
    (xdv2 : Val) (xdisf2 : Bool)
    (hAddet2 : detectConnector xdf3s xdmx (some (xdv1, xdisf1)) = .ok (some (xdv2, xdisf2)))
    (hAdno2 : xdv2 ≠ Val.str xb2.name)
    (hAd3 : xdco.getVal ("Connector_" ++ toString 3 ++ "_Object_Type") = none)
    (xfd : Fld) (hAfld : fldAt? xdf3 xc0 xnodefn = some xfd)
    (hAfdt : xfd.ftype = some "node")
    (hALself : ∀ n, lookupLast (collectRenameds xdf3s) xv0 = some n → n = xv0)
    (hAneq : loopIdx ≠ xc0)
    (kB : replacebranch out1 loopIdx loopfields branchIdx ycomps fluid = .ok out2)
    (kB1 : connectcomponents out1 ycomps fluid = .ok ydf1)
    (kB2 : componentsintobranch ydf1 branchIdx ycomps fluid = .ok ydf2)
    (kBid3 : renamenodes ydf2 "node" = ydf3)
    (yscl : String) (kBscl : fieldAt ydf3 loopIdx fl3 = some (.str yscl))
    (yclIdx : Nat) (kBcl : getobjectIdx ydf3 "CONNECTORLIST" yscl = some yclIdx)
    (ycl : Obj) (kBclobj : getObj? ydf3 yclIdx = some ycl)
    (yct1 ycn1 : String)
    (kBs1t : ycl.getVal ("Connector_" ++ toString 1 ++ "_Object_Type") = some (.str yct1))
    (kBs1nb : isBlankStr yct1 = false)
    (kBs1n : ycl.getVal ("Connector_" ++ toString 1 ++ "_Name") = some (.str ycn1))
    (yspIdx : Nat) (kBres1 : getobjectIdx ydf3 (strToUpper yct1) ycn1 = some yspIdx)
    (ysp : Obj) (kBsp : getObj? ydf3 yspIdx = some ysp)
    (yb : Obj) (kBb : getObj? ydf3 branchIdx = some yb)
    (kBdet1 : detectConnector ydf3 ysp none = .ok (some (Val.str yb.name, true)))
    (yc0 : Nat) (yrest : List Nat)
    (kBcomps : getbranchcomponents ydf3 branchIdx = some (yc0 :: yrest))
    (yco : Obj) (kBc0 : getObj? ydf3 yc0 = some yco)
    (ynodefn : String)
    (kBnfn : getnodefieldname yco "Inlet_Node_Name" fluid "" = some ynodefn)
    (yv0 : String) (kBv0 : fieldAt ydf3 loopIdx inFl = some (.str yv0))
    (kBstage : stageField ydf3 yc0 ynodefn yv0 = .ok ydf3s)
    (ycl2 : Obj) (kBclobj2 : getObj? ydf3s yclIdx = some ycl2)
    (yct2 ycn2 : String)
    (kBs2t : ycl2.getVal ("Connector_" ++ toString 2 ++ "_Object_Type") = some (.str yct2))
    (kBs2nb : isBlankStr yct2 = false)
    (kBs2n : ycl2.getVal ("Connector_" ++ toString 2 ++ "_Name") = some (.str ycn2))
    (ymxIdx : Nat) (kBres2 : getobjectIdx ydf3s (strToUpper yct2) ycn2 = some ymxIdx)
    (ymx : Obj) (kBmx : getObj? ydf3s ymxIdx = some ymx)
    (ymv : Val) (ymisf : Bool)
    (kBdet2 : detectConnector ydf3s ymx (some (Val.str yb.name, true)) = .ok (some (ymv, ymisf)))
    (yb2 : Obj) (kBb2 : getObj? ydf3s branchIdx = some yb2)
    (kBnomatch : ymv ≠ Val.str yb2.name)
    (kBs3 : ycl2.getVal ("Connector_" ++ toString 3 ++ "_Object_Type") = none)
    (ydcl : String) (kBdcl : fieldAt ydf3s loopIdx fl7 = some (.str ydcl))
    (ydclIdx : Nat) (kBdclIdx : getobjectIdx ydf3s "CONNECTORLIST" ydcl = some ydclIdx)
    (ydco : Obj) (kBdco : getObj? ydf3s ydclIdx = some ydco)
    (ydct1 ydcn1 : String)
    (kBd1t : ydco.getVal ("Connector_" ++ toString 1 ++ "_Object_Type") = some (.str ydct1))
    (kBd1nb : isBlankStr ydct1 = false)
    (kBd1n : ydco.getVal ("Connector_" ++ toString 1 ++ "_Name") = some (.str ydcn1))
    (ydspIdx : Nat) (kBdres1 : getobjectIdx ydf3s (strToUpper ydct1) ydcn1 = some ydspIdx)
    (ydsp : Obj) (kBdsp : getObj? ydf3s ydspIdx = some ydsp)
    (ydv1 : Val) (ydisf1 : Bool)
    (kBddet1 : detectConnector ydf3s ydsp (some (ymv, ymisf)) = .ok (some (ydv1, ydisf1)))
    (kBdno1 : ydv1 ≠ Val.str yb2.name)
    (ydct2 ydcn2 : String)
    (kBd2t : ydco.getVal ("Connector_" ++ toString 2 ++ "_Object_Type") = some (.str ydct2))
    (kBd2nb : isBlankStr ydct2 = false)
    (kBd2n : ydco.getVal ("Connector_" ++ toString 2 ++ "_Name") = some (.str ydcn2))
    (ydmxIdx : Nat) (kBdres2 : getobjectIdx ydf3s (strToUpper ydct2) ydcn2 = some ydmxIdx)
    (ydmx : Obj) (kBdmx : getObj? ydf3s ydmxIdx = some ydmx)
    (ydv2 : Val) (ydisf2 : Bool)
    (kBddet2 : detectConnector ydf3s ydmx (some (ydv1, ydisf1)) = .ok (some (ydv2, ydisf2)))
    (kBdno2 : ydv2 ≠ Val.str yb2.name)
    (kBd3 : ydco.getVal ("Connector_" ++ toString 3 ++ "_Object_Type") = none)
    (yfd : Fld) (kBfld : fldAt? ydf3 yc0 ynodefn = some yfd)
    (kBfdt : yfd.ftype = some "node")
    (kBLself : ∀ n, lookupLast (collectRenameds ydf3s) yv0 = some n → n = yv0)
    (kBneq : loopIdx ≠ yc0)
    (hnc2 : loopIdx ∉ ycomps.map (fun p => p.1))
    (hnb2 : loopIdx ≠ branchIdx)
    (hL2 : ∀ n, lookupLast (collectRenameds ydf2) xv0 = some n → n = xv0) :
    fieldAt out1 xc0 xnodefn = some (.str xv0) ∧
    fieldAt out1 loopIdx inFl = some (.str xv0) ∧
    fieldAt out2 yc0 ynodefn = some (.str xv0) ∧
    fieldAt out2 loopIdx inFl = some (.str xv0) := by
  obtain ⟨hk1, hc1, hl1⟩ := replacebranch_first_rebind idf loopIdx loopfields branchIdx
    comps fluid out1 xdf1 xdf2 xdf3 xdf3s hA hA1 hA2 hAid3 hwater fl3 hfl3 xscl hAscl
    xclIdx hAcl xcl hAclobj xct1 xcn1 hAs1t hAs1nb hAs1n xspIdx hAres1 xsp hAsp xb hAb
    hAdet1 xc0 xrest hAcomps xco hAc0 xnodefn hAnfn inFl hinFl xv0 hAv0 hAstage
    xcl2 hAclobj2 xct2 xcn2 hAs2t hAs2nb hAs2n xmxIdx hAres2 xmx hAmx xmv xmisf hAdet2
    xb2 hAb2 hAnomatch hAs3 fl7 hfl7 xdcl hAdcl xdclIdx hAdclIdx xdco hAdco
    xdct1 xdcn1 hAd1t hAd1nb hAd1n xdspIdx hAdres1 xdsp hAdsp xdv1 xdisf1 hAddet1
    hAdno1 xdct2 xdcn2 hAd2t hAd2nb hAd2n xdmxIdx hAdres2 xdmx hAdmx xdv2 xdisf2
    hAddet2 hAdno2 hAd3 xfd hAfld hAfdt hALself hAneq
  have hj3 : fieldAt ydf3 loopIdx inFl = some (.str xv0) := by
    rw [← kBid3]
    refine renamenodes_str_preserved ydf2 "node" loopIdx inFl xv0 ?_ hL2
    unfold fieldAt
    rw [componentsintobranch_frame ydf1 branchIdx ycomps fluid ydf2 kB2 loopIdx hnb2]
    rw [connectcomponents_frame out1 ydf1 ycomps fluid kB1 loopIdx hnc2]
    unfold fieldAt at hl1
    exact hl1
  have hw0 : yv0 = xv0 := by
    have hcomb := hj3.symm.trans kBv0
    exact (Val.str.inj (Option.some.inj hcomb)).symm
  subst hw0
  obtain ⟨kk1, kc1, kl1⟩ := replacebranch_first_rebind out1 loopIdx loopfields branchIdx
    ycomps fluid out2 ydf1 ydf2 ydf3 ydf3s kB kB1 kB2 kBid3 hwater fl3 hfl3 yscl kBscl
    yclIdx kBcl ycl kBclobj yct1 ycn1 kBs1t kBs1nb kBs1n yspIdx kBres1 ysp kBsp yb kBb
    kBdet1 yc0 yrest kBcomps yco kBc0 ynodefn kBnfn inFl hinFl yv0 kBv0 kBstage
    ycl2 kBclobj2 yct2 ycn2 kBs2t kBs2nb kBs2n ymxIdx kBres2 ymx kBmx ymv ymisf kBdet2
    yb2 kBb2 kBnomatch kBs3 fl7 hfl7 ydcl kBdcl ydclIdx kBdclIdx ydco kBdco
    ydct1 ydcn1 kBd1t kBd1nb kBd1n ydspIdx kBdres1 ydsp kBdsp ydv1 ydisf1 kBddet1
    kBdno1 ydct2 ydcn2 kBd2t kBd2nb kBd2n ydmxIdx kBdres2 ydmx kBdmx ydv2 ydisf2
    kBddet2 kBdno2 kBd3 yfd kBfld kBfdt kBLself kBneq
  exact ⟨hc1, hl1, kc1, kl1⟩

/-- C8 witness: on the boundary document both successive `replacebranch`
calls bind the first component's inlet node and the loop's global inlet
field to the identifier LOOPIN. -/
theorem replacebranch_first_branch_rebind_idempotent_witness :
    fieldAt boundaryOut1 2 "Inlet_Node_Name" = some (Val.str "LOOPIN") ∧
    fieldAt boundaryOut1 0 "Plant_Side_Inlet_Node_Name" = some (Val.str "LOOPIN") ∧
    fieldAt boundaryOut2 2 "Inlet_Node_Name" = some (Val.str "LOOPIN") ∧
    fieldAt boundaryOut2 0 "Plant_Side_Inlet_Node_Name" = some (Val.str "LOOPIN") := by
  exact replacebranch_first_branch_rebind_idempotent boundaryDoc 0 plantloopfields 1
    boundaryComps boundaryComps "WATER" boundaryOut1 boundaryOut2
    bIdf1 bIdf2 bIdf3 bIdf3s cIdf1 cIdf2 cIdf3 cIdf3s
    (by decide)
    "Plant_Side_Connector_List_Name" (by decide)
    "Plant_Side_Inlet_Node_Name" (by decide)
    "Demand_Side_Connector_List_Name" (by decide)
    (by decide)
    (by decide) (by decide) (by decide)
    "SCL" (by decide)
    4 (by decide)
    (theObj (getObj? bIdf3 4)) (by decide)
    "Connector:Splitter" "SS" (by decide) (by decide) (by decide)
    5 (by decide)
    (theObj (getObj? bIdf3 5)) (by decide)
    (theObj (getObj? bIdf3 1)) (by decide)
    (by decide)
    2 [] (by decide)
    (theObj (getObj? bIdf3 2)) (by decide)
    "Inlet_Node_Name" (by decide)
    "LOOPIN" (by decide)
    (by decide)
    (theObj (getObj? bIdf3s 4)) (by decide)
    "Connector:Mixer" "SM" (by decide) (by decide) (by decide)
    6 (by decide)
    (theObj (getObj? bIdf3s 6)) (by decide)
    (Val.str "b9") false (by decide)
    (theObj (getObj? bIdf3s 1)) (by decide)
    (by decide)
    (by decide)
    "DCL" (by decide)
    7 (by decide)
    (theObj (getObj? bIdf3s 7)) (by decide)
    "Connector:Splitter" "DS" (by decide) (by decide) (by decide)
    8 (by decide)
    (theObj (getObj? bIdf3s 8)) (by decide)
    (Val.str "d1") true (by decide)
    (by decide)
    "Connector:Mixer" "DM" (by decide) (by decide) (by decide)
    9 (by decide)
    (theObj (getObj? bIdf3s 9)) (by decide)
    (Val.str "d9") false (by decide)
    (by decide)
    (by decide)
    (theFld (fldAt? bIdf3 2 "Inlet_Node_Name")) (by decide) (by decide)
    (fun n hn => by
      rw [show lookupLast (collectRenameds bIdf3s) "LOOPIN" = none from by decide] at hn
      cases hn)
    (by decide)
    (by decide)
    (by decide) (by decide) (by decide)
    "SCL" (by decide)
    4 (by decide)
    (theObj (getObj? cIdf3 4)) (by decide)
    "Connector:Splitter" "SS" (by decide) (by decide) (by decide)
    5 (by decide)
    (theObj (getObj? cIdf3 5)) (by decide)
    (theObj (getObj? cIdf3 1)) (by decide)
    (by decide)
    2 [] (by decide)
    (theObj (getObj? cIdf3 2)) (by decide)
    "Inlet_Node_Name" (by decide)
    "LOOPIN" (by decide)
    (by decide)
    (theObj (getObj? cIdf3s 4)) (by decide)
    "Connector:Mixer" "SM" (by decide) (by decide) (by decide)
    6 (by decide)
    (theObj (getObj? cIdf3s 6)) (by decide)
    (Val.str "b9") false (by decide)
    (theObj (getObj? cIdf3s 1)) (by decide)
    (by decide)
    (by decide)
    "DCL" (by decide)
    7 (by decide)
    (theObj (getObj? cIdf3s 7)) (by decide)
    "Connector:Splitter" "DS" (by decide) (by decide) (by decide)
    8 (by decide)
    (theObj (getObj? cIdf3s 8)) (by decide)
    (Val.str "d1") true (by decide)
    (by decide)
    "Connector:Mixer" "DM" (by decide) (by decide) (by decide)
    9 (by decide)
    (theObj (getObj? cIdf3s 9)) (by decide)
    (Val.str "d9") false (by decide)
    (by decide)
    (by decide)
    (theFld (fldAt? cIdf3 2 "Inlet_Node_Name")) (by decide) (by decide)
    (fun n hn => by
      rw [show lookupLast (collectRenameds cIdf3s) "LOOPIN"
        = some "LOOPIN" from by decide] at hn
      exact (Option.some.inj hn).symm)
    (by decide)
    (by decide)
    (by decide)
    (fun n hn => by
      rw [show lookupLast (collectRenameds cIdf2) "LOOPIN" = none from by decide] at hn
      cases hn)
end Hvac
